import Mathlib

/-!
# SeleniumBase `BaseCase` — verification of spec claims

A shallow embedding, in Lean 4, of the parts of
`seleniumbase/fixtures/base_case.py` that the spec claims talk about:

* selector normalization (`__recalculate_selector`, `__looks_like_a_page_url`,
  `get`),
* the recorder pipeline's dedup/sort step (`__process_recorded_actions`),
* the visual-baseline comparator (`check_window`),
* the append-only tour/chart/presentation builders (`add_tour_step`,
  `add_data_point`, `add_slide`),
* the retry/fallback chains of `click` and `update_text`,
* the shadow-DOM text polling loops.

Python strings are `String`, Python lists are `List`, Python dicts are
association lists with insert-or-overwrite semantics, raised exceptions are
explicit `error`/`Option String` results, and wall-clock effects (sleeps,
waits, scrolls, driver calls) are reified as actions in an explicit trace.

Helper functions of the repository that live outside the provided sources
(`page_utils`, `js_utils`, `css_to_xpath`) are either modelled from the spec
(doc comments say so) or taken as parameters, so that the theorems hold for
every interpretation of the missing code.
-/

set_option autoImplicit false

namespace SeleniumBase

/-!
### A small executable string library

Lean core implements several `String` operations by well-founded recursion on
byte positions, which the kernel cannot evaluate.  Since the witnesses and
counterexamples below must evaluate inside the kernel (`decide` / `rfl`), the
Python string operations used by the embedded code are re-implemented here by
structural recursion on the character list of the string.  They match the
Python semantics: `startswith`, `in`, slicing off a literal, `replace`,
`strip`, `endswith`, and code-point-lexicographic comparison.
-/

/-- `charsStartWith s p` : does the char list `s` start with `p`? -/
def charsStartWith : List Char → List Char → Bool
  | _, [] => true
  | [], _ :: _ => false
  | c :: cs, p :: ps => (c == p) && charsStartWith cs ps

/-- Python `s.startswith(p)`. -/
def pyStartsWith (s p : String) : Bool :=
  charsStartWith s.data p.data

/-- `charsContain s p` : does `p` occur as a contiguous run inside `s`? -/
def charsContain : List Char → List Char → Bool
  | [], p => p.isEmpty
  | c :: cs, p => charsStartWith (c :: cs) p || charsContain cs p

/-- Python's `in` test for strings: `pat in s`. -/
def strContains (s pat : String) : Bool :=
  charsContain s.data pat.data

/-- Python `s[n:]` (drop the first `n` characters). -/
def strDropChars (s : String) (n : Nat) : String :=
  String.mk (s.data.drop n)

/-- Python `s[:-1]` (drop the last character). -/
def strDropLast (s : String) : String :=
  String.mk s.data.dropLast

/-- Python `s.endswith(p)`. -/
def pyEndsWith (s p : String) : Bool :=
  charsStartWith s.data.reverse p.data.reverse

/-- Fuel-driven core of Python `s.replace(pat, rep)` for a non-empty
pattern; the fuel is the length of `s`, so the recursion is structural and
kernel-evaluable. -/
def charsReplaceFuel (pat rep : List Char) : Nat → List Char → List Char
  | 0, s => s
  | _ + 1, [] => []
  | fuel + 1, c :: cs =>
      if charsStartWith (c :: cs) pat && !pat.isEmpty then
        rep ++ charsReplaceFuel pat rep fuel (List.drop (pat.length - 1) cs)
      else
        c :: charsReplaceFuel pat rep fuel cs

/-- Python `s.replace(pat, rep)` (all occurrences, left to right). -/
def pyReplace (s pat rep : String) : String :=
  String.mk (charsReplaceFuel pat.data rep.data s.data.length s.data)

/-- Code-point comparison of characters, as a Bool. -/
def charLtB (a b : Char) : Bool :=
  Nat.blt a.toNat b.toNat

/-- Python `<=` on strings: code-point-lexicographic comparison of the
character lists. -/
def charsLe : List Char → List Char → Bool
  | [], _ => true
  | _ :: _, [] => false
  | a :: as, b :: bs =>
      if charLtB a b then true
      else if charLtB b a then false
      else charsLe as bs

/-- Python `a <= b` on strings. -/
def strLe (a b : String) : Bool :=
  charsLe a.data b.data

/-- Python `s.strip()` (remove leading and trailing whitespace). -/
def pyStrip (s : String) : String :=
  String.mk (((s.data.dropWhile Char.isWhitespace).reverse.dropWhile
    Char.isWhitespace).reverse)

/-- `strLe` is total. -/
theorem charsLe_total : ∀ as bs : List Char,
    charsLe as bs = true ∨ charsLe bs as = true := by
  intro as
  induction as with
  | nil => intro bs; left; rfl
  | cons a as ih =>
      intro bs
      cases bs with
      | nil => right; rfl
      | cons b bs =>
          simp only [charsLe, charLtB, Nat.blt_eq]
          by_cases hab : a.toNat < b.toNat <;> by_cases hba : b.toNat < a.toNat <;>
            simp [hab, hba] <;> exact ih bs

/-- `strLe` is transitive. -/
theorem charsLe_trans : ∀ as bs cs : List Char,
    charsLe as bs = true → charsLe bs cs = true → charsLe as cs = true := by
  intro as
  induction as with
  | nil => intro bs cs _ _; rfl
  | cons a as ih =>
      intro bs cs h1 h2
      cases bs with
      | nil => simp [charsLe] at h1
      | cons b bs =>
          cases cs with
          | nil => simp [charsLe] at h2
          | cons c cs =>
              simp only [charsLe, charLtB, Nat.blt_eq] at h1 h2 ⊢
              by_cases hab : a.toNat < b.toNat <;>
                by_cases hba : b.toNat < a.toNat <;>
                by_cases hbc : b.toNat < c.toNat <;>
                by_cases hcb : c.toNat < b.toNat <;>
                by_cases hac : a.toNat < c.toNat <;>
                by_cases hca : c.toNat < a.toNat <;>
                simp_all <;>
                first
                  | omega
                  | exact ih bs cs (by assumption) (by assumption)
                  | exact Or.inr (ih bs cs (by assumption) (by assumption))

/-- Totality of the Python string comparison. -/
theorem strLe_total (a b : String) : strLe a b = true ∨ strLe b a = true :=
  charsLe_total a.data b.data

theorem strLe_trans {a b c : String} (h1 : strLe a b = true)
    (h2 : strLe b c = true) : strLe a c = true :=
  charsLe_trans a.data b.data c.data h1 h2

/-! ## Claim C9: `get(url)` and `__looks_like_a_page_url(url)` -/

/-- `BaseCase.__looks_like_a_page_url` (base_case.py lines 9531-9550):
returns `True` iff the string starts with one of nine URL scheme markers. -/
def looksLikeAPageUrl (url : String) : Bool :=
  pyStartsWith url "http:"
    || pyStartsWith url "https:"
    || pyStartsWith url "://"
    || pyStartsWith url "chrome:"
    || pyStartsWith url "about:"
    || pyStartsWith url "data:"
    || pyStartsWith url "file:"
    || pyStartsWith url "edge:"
    || pyStartsWith url "opera:"

/-- The two observable behaviours of `BaseCase.get`: navigate to the URL
(`self.open(url)`, which returns `None`) or look the string up as an element
selector and return the found element. -/
inductive GetResult where
  | navigated (url : String)
  | element (selector : String)
  deriving DecidableEq

/-- `BaseCase.get` (base_case.py lines 159-170): dispatches on
`__looks_like_a_page_url`. -/
def get (url : String) : GetResult :=
  if looksLikeAPageUrl url then
    GetResult.navigated url
  else
    GetResult.element url

/-! ## Claim C5: `__recalculate_selector` -/

/-- Selenium locator strategies used by the normalizer. -/
inductive Strategy where
  | cssSelector
  | xpath
  | linkText
  | partialLinkText
  deriving DecidableEq

/-- Modelled from the spec: `page_utils.is_xpath_selector` is not under
`src/`.  The spec says a selector "that looks like XPath" gets the XPath
strategy; XPath selectors are recognized by their leading `/`, `./` or `(`. -/
def is_xpath_selector (s : String) : Bool :=
  pyStartsWith s "/" || pyStartsWith s "./" || pyStartsWith s "("

/-- Modelled from the spec: `page_utils.is_link_text_selector` is not under
`src/`.  The spec names the `"link="` marker ("one starting with the
link-text prefix"). -/
def is_link_text_selector (s : String) : Bool :=
  pyStartsWith s "link="

/-- Modelled from the spec: `page_utils.get_link_text_from_selector` strips
the `"link="` marker. -/
def get_link_text_from_selector (s : String) : String :=
  if pyStartsWith s "link=" then strDropChars s "link=".data.length else s

/-- Modelled from the spec: `page_utils.is_partial_link_text_selector` is not
under `src/`; recognized by the `"partial_link="` marker. -/
def is_partial_link_text_selector (s : String) : Bool :=
  pyStartsWith s "partial_link="

/-- Modelled from the spec: `page_utils.get_partial_link_text_from_selector`
strips the `"partial_link="` marker. -/
def get_partial_link_text_from_selector (s : String) : String :=
  if pyStartsWith s "partial_link=" then strDropChars s "partial_link=".data.length else s

/-- Modelled from the spec: `page_utils.is_name_selector` is not under
`src/`.  The spec names the `"name="` form. -/
def is_name_selector (s : String) : Bool :=
  pyStartsWith s "name="

/-- Modelled from the spec: `page_utils.get_name_from_selector` strips the
`"name="` marker. -/
def get_name_from_selector (s : String) : String :=
  if pyStartsWith s "name=" then strDropChars s "name=".data.length else s

/-- A Python value passed as the `selector` argument: either a string or a
non-string (tagged with its type name, used in the error message). -/
inductive PySelector where
  | str (s : String)
  | nonString (typeName : String)
  deriving DecidableEq

/-- The error text of `__recalculate_selector` for non-string selectors
(base_case.py lines 9510-9512). -/
def invalidSelectorTypeMsg (typeName : String) : String :=
  "Invalid selector type: \"" ++ typeName ++ "\"\n"
    ++ "Expecting a selector of type: \"<class \x27str\x27>\" (string)!"

/-- `BaseCase.__recalculate_selector` (base_case.py lines 9498-9529),
translated line by line.  `cssToXpath` stands for
`css_to_xpath.convert_css_to_xpath`, whose source is not under `src/`;
every theorem below holds for an arbitrary conversion function. -/
def recalculateSelector (cssToXpath : String → String)
    (selector : PySelector) (by_ : Strategy) (xpOk : Bool) :
    Except String (String × Strategy) :=
  match selector with
  | PySelector.nonString t => Except.error (invalidSelectorTypeMsg t)
  | PySelector.str s =>
      let by_ := if is_xpath_selector s then Strategy.xpath else by_
      let p :=
        if is_link_text_selector s then
          (get_link_text_from_selector s, Strategy.linkText)
        else (s, by_)
      let s := p.1
      let by_ := p.2
      let p :=
        if is_partial_link_text_selector s then
          (get_partial_link_text_from_selector s, Strategy.partialLinkText)
        else (s, by_)
      let s := p.1
      let by_ := p.2
      let p :=
        if is_name_selector s then
          ("[name=\"" ++ get_name_from_selector s ++ "\"]",
            Strategy.cssSelector)
        else (s, by_)
      let s := p.1
      let by_ := p.2
      let p :=
        if xpOk && (strContains s ":contains(" && (by_ == Strategy.cssSelector))
        then (cssToXpath s, Strategy.xpath)
        else (s, by_)
      Except.ok p

/-- Spec-side decomposition, rule 1: the XPath check only retags. -/
def xpathRule (p : String × Strategy) : String × Strategy :=
  if is_xpath_selector p.1 then (p.1, Strategy.xpath) else p

/-- Spec-side decomposition, rule 2: the link-text rewrite. -/
def linkTextRule (p : String × Strategy) : String × Strategy :=
  if is_link_text_selector p.1 then
    (get_link_text_from_selector p.1, Strategy.linkText)
  else p

/-- Spec-side decomposition, rule 3: the partial-link-text rewrite. -/
def partialLinkTextRule (p : String × Strategy) : String × Strategy :=
  if is_partial_link_text_selector p.1 then
    (get_partial_link_text_from_selector p.1, Strategy.partialLinkText)
  else p

/-- Spec-side decomposition, rule 4: the `name=N` rewrite. -/
def nameRule (p : String × Strategy) : String × Strategy :=
  if is_name_selector p.1 then
    ("[name=\"" ++ get_name_from_selector p.1 ++ "\"]", Strategy.cssSelector)
  else p

/-- Spec-side decomposition, rule 5: the `:contains(` CSS-to-XPath
conversion, applied only when the strategy is still CSS and `xp_ok` holds. -/
def containsRule (cssToXpath : String → String) (xpOk : Bool)
    (p : String × Strategy) : String × Strategy :=
  if xpOk && (strContains p.1 ":contains(" && (p.2 == Strategy.cssSelector))
  then (cssToXpath p.1, Strategy.xpath)
  else p

/-- C9: `get(url)` navigates the browser (like `open(url)`, returning
nothing) precisely when the string starts with one of the nine URL markers
`http:`, `https:`, `://`, `chrome:`, `about:`, `data:`, `file:`, `edge:`,
`opera:`; any other string is treated as an element selector and the found
element is returned. -/
theorem get_navigates_iff_nine_url_markers (url : String) :
    (get url = GetResult.navigated url ↔
      (pyStartsWith url "http:" = true ∨ pyStartsWith url "https:" = true
        ∨ pyStartsWith url "://" = true ∨ pyStartsWith url "chrome:" = true
        ∨ pyStartsWith url "about:" = true ∨ pyStartsWith url "data:" = true
        ∨ pyStartsWith url "file:" = true ∨ pyStartsWith url "edge:" = true
        ∨ pyStartsWith url "opera:" = true)) ∧
    (get url = GetResult.element url ↔
      ¬ (pyStartsWith url "http:" = true ∨ pyStartsWith url "https:" = true
        ∨ pyStartsWith url "://" = true ∨ pyStartsWith url "chrome:" = true
        ∨ pyStartsWith url "about:" = true ∨ pyStartsWith url "data:" = true
        ∨ pyStartsWith url "file:" = true ∨ pyStartsWith url "edge:" = true
        ∨ pyStartsWith url "opera:" = true)) := by
  have hd : looksLikeAPageUrl url = true ↔
      (pyStartsWith url "http:" = true ∨ pyStartsWith url "https:" = true
        ∨ pyStartsWith url "://" = true ∨ pyStartsWith url "chrome:" = true
        ∨ pyStartsWith url "about:" = true ∨ pyStartsWith url "data:" = true
        ∨ pyStartsWith url "file:" = true ∨ pyStartsWith url "edge:" = true
        ∨ pyStartsWith url "opera:" = true) := by
    simp only [looksLikeAPageUrl, Bool.or_eq_true]
    tauto
  by_cases h : looksLikeAPageUrl url = true
  · rw [get, if_pos h]
    refine ⟨⟨fun _ => hd.mp h, fun _ => rfl⟩, ?_, ?_⟩
    · intro he; exact GetResult.noConfusion he
    · intro hn; exact absurd (hd.mp h) hn
  · rw [get, if_neg h]
    refine ⟨⟨fun he => GetResult.noConfusion he, fun hdisj => absurd (hd.mpr hdisj) h⟩,
      fun _ => fun hdisj => h (hd.mpr hdisj), fun _ => rfl⟩

/-- C9 witness: a URL string is navigated to, a CSS selector string is
looked up as an element. -/
theorem get_navigates_iff_nine_url_markers_witness :
    get "https://seleniumbase.io" = GetResult.navigated "https://seleniumbase.io"
      ∧ get "input.class" = GetResult.element "input.class" :=
  ⟨(get_navigates_iff_nine_url_markers "https://seleniumbase.io").1.2
      (Or.inr (Or.inl (by decide))),
    (get_navigates_iff_nine_url_markers "input.class").2.2 (by decide)⟩

/-- C5 (amended): `__recalculate_selector` is a pure string rewrite, but it
is a sequential cascade, not a first-match rule set: each of the five
pattern rules (XPath retag, link-text rewrite, partial-link-text rewrite,
`name=N` rewrite, `:contains(` conversion) is applied in order to the result
of the previous rule, and a non-string selector raises an Exception. -/
theorem recalculate_selector_sequential_cascade (cssToXpath : String → String)
    (s t : String) (b : Strategy) (xpOk : Bool) :
    recalculateSelector cssToXpath (PySelector.str s) b xpOk =
      Except.ok (containsRule cssToXpath xpOk
        (nameRule (partialLinkTextRule (linkTextRule (xpathRule (s, b)))))) ∧
    recalculateSelector cssToXpath (PySelector.nonString t) b xpOk =
      Except.error (invalidSelectorTypeMsg t) := by
  refine ⟨?_, rfl⟩
  simp only [recalculateSelector, xpathRule, linkTextRule, partialLinkTextRule,
    nameRule, containsRule]
  by_cases hx : is_xpath_selector s = true <;>
    by_cases hl : is_link_text_selector s = true <;>
    simp [hx, hl]

/-- C5 counterexample: on `"link=name=x"` two rewrite rules fire in
sequence; the result is the CSS `name` rewrite of the stripped link text,
not the first-match result (the stripped link text with the LINK_TEXT
strategy). -/
theorem recalculate_selector_first_match_counterexample :
    is_link_text_selector "link=name=x" = true ∧
    recalculateSelector (fun s => s) (PySelector.str "link=name=x")
        Strategy.cssSelector true =
      Except.ok ("[name=\"x\"]", Strategy.cssSelector) ∧
    recalculateSelector (fun s => s) (PySelector.str "link=name=x")
        Strategy.cssSelector true ≠
      Except.ok ("name=x", Strategy.linkText) := by
  have e1 : recalculateSelector (fun s => s) (PySelector.str "link=name=x")
      Strategy.cssSelector true =
      Except.ok ("[name=\"x\"]", Strategy.cssSelector) := rfl
  refine ⟨by decide, e1, ?_⟩
  intro h
  rw [e1] at h
  exact absurd (Except.ok.inj h) (by decide)

/-! ## Claim C2: `__process_recorded_actions` — gather, dedup, sort

The recorder's processing step (base_case.py lines 3039-3068): raw action
tuples are gathered from every browser tab and from the extra-actions list,
skipping tuples already seen; each remaining tuple is stored in a dict under
the key `str(timestamp) + "-" + str(kind)` (later entries overwrite earlier
ones); finally the dict is iterated in sorted key order.  Note the sort key
is a STRING, so the order is lexicographic on the decimal digits, not
numeric.
-/

/-- A recorded action tuple `(kind, target, value/href, timestamp)`
(timestamps are JavaScript epoch-millisecond integers). -/
structure RecAction where
  kind : String
  target : String
  value : String
  timestamp : Nat
  deriving DecidableEq

/-- The dedup/sort key of line 3064:
`str(action[3]) + "-" + str(action[0])`. -/
def actionKey (a : RecAction) : String :=
  toString a.timestamp ++ "-" ++ a.kind

/-- One step of the `used_actions`/`raw_actions` accumulation (lines
3048-3058): append the action unless it was already collected. -/
def addIfNew (acc : List RecAction) (a : RecAction) : List RecAction :=
  if acc.contains a then acc else acc ++ [a]

/-- Lines 3048-3058: collect the actions of every tab, then the
extra actions, keeping only the first occurrence of each tuple. -/
def gatherRawActions (tabActions : List (List RecAction))
    (extraActions : List RecAction) : List RecAction :=
  (tabActions.flatten ++ extraActions).foldl addIfNew []

/-- Python dict assignment `d[k] = v`: overwrite in place if the key is
present, append otherwise. -/
def dictInsert {α : Type} : List (String × α) → String → α → List (String × α)
  | [], k, v => [(k, v)]
  | (k', v') :: rest, k, v =>
      if k' = k then (k, v) :: rest else (k', v') :: dictInsert rest k v

/-- Lines 3059-3065: build `action_dict`, skipping pre-session actions when
the session is reused, keyed by `actionKey`. -/
def buildActionDict (reuseSession : Bool) (jsStartTime : Nat)
    (raw : List RecAction) : List (String × RecAction) :=
  raw.foldl
    (fun d a =>
      if reuseSession && decide (a.timestamp < jsStartTime) then d
      else dictInsert d (actionKey a) a)
    []

/-- The order used by `sorted(action_dict)`: Python string comparison of the
dict keys. -/
def keyLe (p q : String × RecAction) : Prop :=
  strLe p.1 q.1 = true

instance : DecidableRel keyLe :=
  fun p q => inferInstanceAs (Decidable (strLe p.1 q.1 = true))

instance : IsTotal (String × RecAction) keyLe :=
  ⟨fun p q => strLe_total p.1 q.1⟩

instance : IsTrans (String × RecAction) keyLe :=
  ⟨fun _ _ _ h1 h2 => strLe_trans h1 h2⟩

/-- Lines 3066-3068: `srt_actions` is the dict's values in sorted-key
order. -/
def srtActions (reuseSession : Bool) (jsStartTime : Nat)
    (raw : List RecAction) : List RecAction :=
  (List.insertionSort keyLe (buildActionDict reuseSession jsStartTime raw)).map
    Prod.snd

/-- The gather-dedup-sort stage of `__process_recorded_actions`
(base_case.py lines 3039-3068), before the pattern-collapsing passes and
serialization. -/
def processRecordedActions (tabActions : List (List RecAction))
    (extraActions : List RecAction) (reuseSession : Bool)
    (jsStartTime : Nat) : List RecAction :=
  srtActions reuseSession jsStartTime (gatherRawActions tabActions extraActions)

/-- Membership in `dictInsert`. -/
theorem mem_dictInsert {α : Type} {m : List (String × α)} {k : String}
    {v : α} {p : String × α} :
    p ∈ dictInsert m k v → p = (k, v) ∨ p ∈ m := by
  induction m with
  | nil => intro h; simpa [dictInsert] using h
  | cons q rest ih =>
      obtain ⟨k2, v2⟩ := q
      intro h
      simp only [dictInsert] at h
      by_cases hk : k2 = k
      · rw [if_pos hk] at h
        rcases List.mem_cons.mp h with h | h
        · exact Or.inl h
        · exact Or.inr (List.mem_cons_of_mem _ h)
      · rw [if_neg hk] at h
        rcases List.mem_cons.mp h with h | h
        · exact Or.inr (by simp [h])
        · rcases ih h with h2 | h2
          · exact Or.inl h2
          · exact Or.inr (List.mem_cons_of_mem _ h2)

/-- The keys of `dictInsert m k v`. -/
theorem keys_dictInsert {α : Type} (m : List (String × α)) (k : String)
    (v : α) :
    (dictInsert m k v).map Prod.fst =
      (if k ∈ m.map Prod.fst then m.map Prod.fst
        else m.map Prod.fst ++ [k]) := by
  induction m with
  | nil => simp [dictInsert]
  | cons q rest ih =>
      by_cases hk : q.1 = k
      · cases q
        simp_all [dictInsert]
      · cases q
        simp only [dictInsert, if_neg hk, List.map_cons, ih]
        by_cases hmem : k ∈ rest.map Prod.fst <;>
          simp_all [eq_comm]

/-- `dictInsert` preserves key-uniqueness. -/
theorem keys_nodup_dictInsert {α : Type} {m : List (String × α)}
    (h : (m.map Prod.fst).Nodup) (k : String) (v : α) :
    ((dictInsert m k v).map Prod.fst).Nodup := by
  rw [keys_dictInsert]
  by_cases hmem : k ∈ m.map Prod.fst
  · simpa [hmem] using h
  · simp only [hmem, if_false]
    simp [List.nodup_append, h, hmem]

/-- Every entry of `buildActionDict` is keyed by `actionKey` of its value,
and the keys are unique. -/
theorem buildActionDict_invariant (reuseSession : Bool) (jsStartTime : Nat)
    (raw : List RecAction) :
    (∀ p ∈ buildActionDict reuseSession jsStartTime raw,
        p.1 = actionKey p.2) ∧
    ((buildActionDict reuseSession jsStartTime raw).map Prod.fst).Nodup := by
  have main :
      ∀ (l : List RecAction) (d : List (String × RecAction)),
        (∀ p ∈ d, p.1 = actionKey p.2) → (d.map Prod.fst).Nodup →
        (∀ p ∈ l.foldl
            (fun d a =>
              if reuseSession && decide (a.timestamp < jsStartTime) then d
              else dictInsert d (actionKey a) a) d,
          p.1 = actionKey p.2) ∧
        ((l.foldl
            (fun d a =>
              if reuseSession && decide (a.timestamp < jsStartTime) then d
              else dictInsert d (actionKey a) a) d).map Prod.fst).Nodup := by
    intro l
    induction l with
    | nil => intro d hkey hnd; exact ⟨hkey, hnd⟩
    | cons a l ih =>
        intro d hkey hnd
        simp only [List.foldl_cons]
        by_cases hskip : (reuseSession && decide (a.timestamp < jsStartTime)) = true
        · rw [if_pos hskip]
          exact ih d hkey hnd
        · rw [if_neg hskip]
          refine ih (dictInsert d (actionKey a) a) ?_ ?_
          · intro p hp
            rcases mem_dictInsert hp with h | h
            · rw [h]
            · exact hkey p h
          · exact keys_nodup_dictInsert hnd _ _
  exact main raw [] (by simp) (by simp)

/-- C2 (amended): the sequence produced by the gather-dedup-sort stage is
deduplicated — each raw tuple appears at most once and at most one action is
kept per `(timestamp, kind)` pair, both witnessed by the uniqueness of the
string keys — and it is sorted in nondecreasing order of the STRING key
`str(timestamp) + "-" + str(kind)` (Python string comparison), which agrees
with numeric timestamp order only when all timestamps have equally many
decimal digits. -/
theorem processRecordedActions_dedup_and_key_sorted
    (tabActions : List (List RecAction)) (extraActions : List RecAction)
    (reuseSession : Bool) (jsStartTime : Nat) :
    ((processRecordedActions tabActions extraActions reuseSession
        jsStartTime).map actionKey).Nodup ∧
    (processRecordedActions tabActions extraActions reuseSession
        jsStartTime).Nodup ∧
    (processRecordedActions tabActions extraActions reuseSession
        jsStartTime).Pairwise
      (fun a b => strLe (actionKey a) (actionKey b) = true) := by
  set raw := gatherRawActions tabActions extraActions with hraw
  obtain ⟨hkeyOf, hnodup⟩ :=
    buildActionDict_invariant reuseSession jsStartTime raw
  set dict := buildActionDict reuseSession jsStartTime raw with hdict
  have hperm : List.Perm (List.insertionSort keyLe dict) dict :=
    List.perm_insertionSort keyLe dict
  have hsorted : (List.insertionSort keyLe dict).Pairwise keyLe :=
    List.sorted_insertionSort keyLe dict
  have hkeyOf' : ∀ p ∈ List.insertionSort keyLe dict, p.1 = actionKey p.2 :=
    fun p hp => hkeyOf p (hperm.mem_iff.mp hp)
  have hmapkeys :
      (List.insertionSort keyLe dict).map (fun p => actionKey p.2) =
        (List.insertionSort keyLe dict).map Prod.fst := by
    refine List.map_congr_left ?_
    intro p hp
    exact (hkeyOf' p hp).symm
  have hkeysNodup :
      ((List.insertionSort keyLe dict).map (fun p => actionKey p.2)).Nodup := by
    rw [hmapkeys]
    exact ((hperm.map Prod.fst).nodup_iff).mpr hnodup
  have houtkeys :
      (processRecordedActions tabActions extraActions reuseSession
          jsStartTime).map actionKey =
        (List.insertionSort keyLe dict).map (fun p => actionKey p.2) := by
    simp [processRecordedActions, srtActions, hraw, hdict,
      List.map_map, Function.comp]
  have hout : processRecordedActions tabActions extraActions reuseSession
      jsStartTime = (List.insertionSort keyLe dict).map Prod.snd := by
    simp [processRecordedActions, srtActions, hraw, hdict]
  refine ⟨by rw [houtkeys]; exact hkeysNodup, ?_, ?_⟩
  · exact List.Nodup.of_map actionKey (by rw [houtkeys]; exact hkeysNodup)
  · rw [hout, List.pairwise_map]
    refine hsorted.imp_of_mem ?_
    intro p q hp hq hle
    have := hkeyOf' p hp
    have := hkeyOf' q hq
    unfold keyLe at hle
    simp_all

/-- C2 counterexample: with timestamps 9 and 100 (different digit counts)
the string-key sort puts timestamp 100 before timestamp 9, so the output is
not sorted by timestamp in nondecreasing numeric order. -/
theorem processRecordedActions_numeric_order_counterexample :
    processRecordedActions
        [[{ kind := "click", target := "#a", value := "u", timestamp := 9 },
          { kind := "click", target := "#b", value := "u", timestamp := 100 }]]
        [] false 0 =
      [{ kind := "click", target := "#b", value := "u", timestamp := 100 },
       { kind := "click", target := "#a", value := "u", timestamp := 9 }] ∧
    ¬ (List.map RecAction.timestamp
        (processRecordedActions
          [[{ kind := "click", target := "#a", value := "u", timestamp := 9 },
            { kind := "click", target := "#b", value := "u", timestamp := 100 }]]
          [] false 0)).Sorted (· ≤ ·) := by
  constructor
  · decide
  · decide

/-! ## Claims C3 and C4: `check_window`

`BaseCase.check_window` (base_case.py lines 8868-9089): validate the level,
decide whether this call (re)builds the baseline (explicit `baseline=True`,
the `--visual_baseline` flag, or any missing baseline artifact), and either
write the five ground-truth files without comparing, or read them and
compare without writing.
-/

/-- A Python value passed as the `level` argument of `check_window`: an int
or a string. -/
inductive PyLevel where
  | int (n : Int)
  | str (s : String)
  deriving DecidableEq

/-- The error text of base_case.py line 8949. -/
def invalidLevelMsg : String :=
  "Parameter \"level\" must be set to 0, 1, 2, or 3!"

/-- Lines 8940-8949: the single-digit strings are mapped to ints, then
anything different from 0, 1, 2 and 3 raises. -/
def checkWindowLevel (level : PyLevel) : Except String Int :=
  let level := if level = PyLevel.str "0" then PyLevel.int 0 else level
  let level := if level = PyLevel.str "1" then PyLevel.int 1 else level
  let level := if level = PyLevel.str "2" then PyLevel.int 2 else level
  let level := if level = PyLevel.str "3" then PyLevel.int 3 else level
  match level with
  | PyLevel.int n =>
      if n ≠ 0 ∧ n ≠ 1 ∧ n ≠ 2 ∧ n ≠ 3 then Except.error invalidLevelMsg
      else Except.ok n
  | PyLevel.str _ => Except.error invalidLevelMsg

/-- The level values the claim says are accepted. -/
def acceptedLevel (level : PyLevel) : Bool :=
  level == PyLevel.int 0 || level == PyLevel.int 1 || level == PyLevel.int 2
    || level == PyLevel.int 3 || level == PyLevel.str "0"
    || level == PyLevel.str "1" || level == PyLevel.str "2"
    || level == PyLevel.str "3"

/-- An HTML tag of the page body as observed through BeautifulSoup: its name
and its attribute dict (unique keys, unordered). -/
structure HtmlTag where
  name : String
  attrs : List (String × String)
  deriving DecidableEq

/-- Python string comparison as a `Prop`, for `sorted`. -/
def strLeP (a b : String) : Prop :=
  strLe a b = true

instance : DecidableRel strLeP :=
  fun a b => inferInstanceAs (Decidable (strLe a b = true))

/-- Python tuple comparison on string pairs (used by
`sorted(tag.attrs.items())`). -/
def pairLeB (p q : String × String) : Bool :=
  if p.1 = q.1 then strLe p.2 q.2 else strLe p.1 q.1

/-- Python tuple comparison as a `Prop`, for `sorted`. -/
def pairLe (p q : String × String) : Prop :=
  pairLeB p q = true

instance : DecidableRel pairLe :=
  fun p q => inferInstanceAs (Decidable (pairLeB p q = true))

/-- Line 8997: `level_1 = [[tag.name] for tag in html_tags]`. -/
def tagsLevel1 (tags : List HtmlTag) : List (List String) :=
  tags.map (fun t => [t.name])

/-- Line 8999:
`level_2 = [[tag.name, sorted(tag.attrs.keys())] for tag in html_tags]`. -/
def tagsLevel2 (tags : List HtmlTag) : List (String × List String) :=
  tags.map (fun t => (t.name, List.insertionSort strLeP (t.attrs.map Prod.fst)))

/-- Line 9001:
`level_3 = [[tag.name, sorted(tag.attrs.items())] for tag in html_tags]`. -/
def tagsLevel3 (tags : List HtmlTag) : List (String × List (String × String)) :=
  tags.map (fun t => (t.name, List.insertionSort pairLe t.attrs))

/-- Which baseline artifacts exist on disk before the call (lines
8977-8992 test the folder and the five files). -/
structure BaselineFiles where
  folderExists : Bool
  pageUrlFile : Bool
  screenshotFile : Bool
  level1File : Bool
  level2File : Bool
  level3File : Bool
  deriving DecidableEq

/-- Lines 8974-8992: rebuild the baseline if explicitly requested, if the
`--visual_baseline` flag is set, or if the folder or any artifact file is
missing. -/
def setBaseline (baseline visualBaseline : Bool) (f : BaselineFiles) : Bool :=
  baseline || visualBaseline || !f.folderExists || !f.pageUrlFile
    || !f.screenshotFile || !f.level1File || !f.level2File || !f.level3File

/-- The five baseline artifacts, in the order they are written by lines
9004-9017. -/
inductive BaselineFile where
  | screenshot
  | pageUrl
  | level1
  | level2
  | level3
  deriving DecidableEq

/-- The stored baseline, as read back from the artifact files (lines
9019-9031; the page URL is read with `.strip()` applied). -/
structure StoredBaseline where
  pageUrlData : String
  level1Data : List (List String)
  level2Data : List (String × List String)
  level3Data : List (String × List (String × String))
  deriving DecidableEq

/-- The current page as captured by the call: its URL and its body tags. -/
structure PageCapture where
  pageUrl : String
  tags : List HtmlTag
  deriving DecidableEq

/-- Observable outcome of a `check_window` call.  `invalidLevel`,
`domainMismatch` and `levelDiff` raise; `baselineSet`, `passed` and
`dryRunPrinted` return normally (level 0 only prints differences). -/
inductive CheckWindowOutcome where
  | invalidLevel
  | baselineSet
  | passed
  | domainMismatch
  | levelDiff (lvl : Int)
  | dryRunPrinted
  deriving DecidableEq

/-- `BaseCase.check_window` (lines 8939-9089).  `domainOf` stands for
`page_utils.get_domain_url`, which is not under `src/`; the theorems hold
for every interpretation.  The second component lists the artifact files
written by the call. -/
def checkWindow (domainOf : String → String) (level : PyLevel)
    (baseline visualBaseline checkDomain : Bool) (files : BaselineFiles)
    (stored : StoredBaseline) (current : PageCapture) :
    CheckWindowOutcome × List BaselineFile :=
  match checkWindowLevel level with
  | Except.error _ => (CheckWindowOutcome.invalidLevel, [])
  | Except.ok lvl =>
      if setBaseline baseline visualBaseline files then
        (CheckWindowOutcome.baselineSet,
          [BaselineFile.screenshot, BaselineFile.pageUrl, BaselineFile.level1,
            BaselineFile.level2, BaselineFile.level3])
      else
        if lvl ≠ 0 ∧ checkDomain = true
            ∧ domainOf stored.pageUrlData ≠ domainOf current.pageUrl then
          (CheckWindowOutcome.domainMismatch, [])
        else if lvl = 3 ∧ stored.level3Data ≠ tagsLevel3 current.tags then
          (CheckWindowOutcome.levelDiff 3, [])
        else if lvl = 2 ∧ stored.level2Data ≠ tagsLevel2 current.tags then
          (CheckWindowOutcome.levelDiff 2, [])
        else if lvl = 1 ∧ stored.level1Data ≠ tagsLevel1 current.tags then
          (CheckWindowOutcome.levelDiff 1, [])
        else if lvl = 0 then
          (CheckWindowOutcome.dryRunPrinted, [])
        else
          (CheckWindowOutcome.passed, [])

/-- Every accepted level value normalizes to some int without raising. -/
theorem checkWindowLevel_ok_of_accepted (level : PyLevel)
    (h : acceptedLevel level = true) :
    ∃ lvl, checkWindowLevel level = Except.ok lvl := by
  simp only [acceptedLevel, Bool.or_eq_true, beq_iff_eq] at h
  rcases h with ((((((h | h) | h) | h) | h) | h) | h) | h <;> subst h <;>
    exact ⟨_, rfl⟩

/-- `checkWindowLevel` fails exactly on the values outside
`{0, 1, 2, 3, "0", "1", "2", "3"}`. -/
theorem checkWindowLevel_error_iff (level : PyLevel) :
    checkWindowLevel level = Except.error invalidLevelMsg ↔
      acceptedLevel level = false := by
  rcases level with n | s
  · simp only [checkWindowLevel, acceptedLevel]
    by_cases h0 : n = 0 <;> by_cases h1 : n = 1 <;> by_cases h2 : n = 2 <;>
      by_cases h3 : n = 3 <;> simp_all
  · simp only [checkWindowLevel, acceptedLevel]
    by_cases h0 : s = "0" <;> by_cases h1 : s = "1" <;> by_cases h2 : s = "2"
      <;> by_cases h3 : s = "3" <;> simp_all

/-- C3: `check_window` accepts exactly the levels 0-3 (ints or the
single-digit strings) and raises on anything else; when comparing against an
existing baseline (no baseline rebuild), a level in `{1,2,3}` raises the
domain mismatch first when `check_domain` is set and the domains differ, and
otherwise fails with a visual-diff failure if and only if the stored tag
list of that level differs from the current page's tag list for that level;
at level 0 the call never raises. -/
theorem check_window_level_semantics (domainOf : String → String)
    (level : PyLevel) (baseline visualBaseline checkDomain : Bool)
    (files : BaselineFiles) (stored : StoredBaseline)
    (current : PageCapture) :
    ((checkWindow domainOf level baseline visualBaseline checkDomain files
        stored current).1 = CheckWindowOutcome.invalidLevel ↔
      acceptedLevel level = false) ∧
    (∀ lvl : Int, checkWindowLevel level = Except.ok lvl →
      setBaseline baseline visualBaseline files = false →
      ((checkDomain = false
          ∨ domainOf stored.pageUrlData = domainOf current.pageUrl) →
        ((lvl = 1 →
          (((checkWindow domainOf level baseline visualBaseline checkDomain
              files stored current).1 = CheckWindowOutcome.levelDiff 1 ↔
            stored.level1Data ≠ tagsLevel1 current.tags) ∧
          ((checkWindow domainOf level baseline visualBaseline checkDomain
              files stored current).1 = CheckWindowOutcome.passed ↔
            stored.level1Data = tagsLevel1 current.tags))) ∧
        (lvl = 2 →
          (((checkWindow domainOf level baseline visualBaseline checkDomain
              files stored current).1 = CheckWindowOutcome.levelDiff 2 ↔
            stored.level2Data ≠ tagsLevel2 current.tags) ∧
          ((checkWindow domainOf level baseline visualBaseline checkDomain
              files stored current).1 = CheckWindowOutcome.passed ↔
            stored.level2Data = tagsLevel2 current.tags))) ∧
        (lvl = 3 →
          (((checkWindow domainOf level baseline visualBaseline checkDomain
              files stored current).1 = CheckWindowOutcome.levelDiff 3 ↔
            stored.level3Data ≠ tagsLevel3 current.tags) ∧
          ((checkWindow domainOf level baseline visualBaseline checkDomain
              files stored current).1 = CheckWindowOutcome.passed ↔
            stored.level3Data = tagsLevel3 current.tags))))) ∧
      (lvl ≠ 0 → checkDomain = true →
        domainOf stored.pageUrlData ≠ domainOf current.pageUrl →
        (checkWindow domainOf level baseline visualBaseline checkDomain files
            stored current).1 = CheckWindowOutcome.domainMismatch) ∧
      (lvl = 0 →
        (checkWindow domainOf level baseline visualBaseline checkDomain files
            stored current).1 = CheckWindowOutcome.dryRunPrinted)) := by
  constructor
  · by_cases hacc : acceptedLevel level = true
    · obtain ⟨lvl, hv⟩ := checkWindowLevel_ok_of_accepted level hacc
      simp only [checkWindow, hv, hacc]
      constructor
      · intro hout
        exfalso
        repeat' split at hout
        all_goals simp_all
      · intro hfa
        exact Bool.noConfusion hfa
    · have haccf : acceptedLevel level = false := by
        simpa using hacc
      have he := (checkWindowLevel_error_iff level).mpr haccf
      simp [checkWindow, he, haccf]
  · intro lvl hv hnb
    refine ⟨?_, ?_, ?_⟩
    · intro hdom
      refine ⟨?_, ?_, ?_⟩
      all_goals intro hl
      all_goals subst hl
      all_goals constructor
      all_goals simp only [checkWindow, hv, hnb, Bool.false_eq_true, if_false]
      all_goals rcases hdom with hcd | hde
      all_goals
        first
          | (by_cases h3 : stored.level3Data = tagsLevel3 current.tags <;>
              by_cases h2 : stored.level2Data = tagsLevel2 current.tags <;>
              by_cases h1 : stored.level1Data = tagsLevel1 current.tags <;>
              simp_all)
    · intro hl0 hcd hde
      simp only [checkWindow, hv, hnb, Bool.false_eq_true, if_false]
      rw [if_pos ⟨hl0, hcd, hde⟩]
    · intro hl0
      subst hl0
      simp only [checkWindow, hv, hnb, Bool.false_eq_true, if_false]
      simp

/-- C3 witness: at level 2, with an existing baseline whose level-2 tag list
matches the current page, the call passes. -/
theorem check_window_level_semantics_witness :
    (checkWindow (fun s => s) (PyLevel.int 2) false false false
        { folderExists := true, pageUrlFile := true, screenshotFile := true,
          level1File := true, level2File := true, level3File := true }
        { pageUrlData := "https://a.io/x", level1Data := [["div"]],
          level2Data := [("div", [])], level3Data := [("div", [])] }
        { pageUrl := "https://a.io/y",
          tags := [{ name := "div", attrs := [] }] }).1 =
      CheckWindowOutcome.passed := by
  have h := check_window_level_semantics (fun s => s) (PyLevel.int 2)
      false false false
      { folderExists := true, pageUrlFile := true, screenshotFile := true,
        level1File := true, level2File := true, level3File := true }
      { pageUrlData := "https://a.io/x", level1Data := [["div"]],
        level2Data := [("div", [])], level3Data := [("div", [])] }
      { pageUrl := "https://a.io/y",
        tags := [{ name := "div", attrs := [] }] }
  exact (((h.2 2 (by rfl) (by rfl)).1 (Or.inl rfl)).2.1 rfl).2.mpr (by decide)

/-- C4: a `check_window` call with a valid level rebuilds the baseline
exactly when the rebuild was requested (`baseline=True` or the
`--visual_baseline` flag) or when the baseline folder or any of the five
artifact files is missing; a rebuilding call writes the screenshot, the
page-URL file and the three tag-list files and performs no comparison,
while a non-rebuilding call writes nothing and compares. -/
theorem check_window_write_once (domainOf : String → String)
    (level : PyLevel) (baseline visualBaseline checkDomain : Bool)
    (files : BaselineFiles) (stored : StoredBaseline)
    (current : PageCapture) :
    (setBaseline baseline visualBaseline files = true ↔
      (baseline = true ∨ visualBaseline = true
        ∨ files.folderExists = false ∨ files.pageUrlFile = false
        ∨ files.screenshotFile = false ∨ files.level1File = false
        ∨ files.level2File = false ∨ files.level3File = false)) ∧
    (acceptedLevel level = true →
      (setBaseline baseline visualBaseline files = true →
        (checkWindow domainOf level baseline visualBaseline checkDomain files
            stored current).2 =
          [BaselineFile.screenshot, BaselineFile.pageUrl, BaselineFile.level1,
            BaselineFile.level2, BaselineFile.level3] ∧
        (checkWindow domainOf level baseline visualBaseline checkDomain files
            stored current).1 = CheckWindowOutcome.baselineSet) ∧
      (setBaseline baseline visualBaseline files = false →
        (checkWindow domainOf level baseline visualBaseline checkDomain files
            stored current).2 = [] ∧
        (checkWindow domainOf level baseline visualBaseline checkDomain files
            stored current).1 ≠ CheckWindowOutcome.baselineSet)) := by
  constructor
  · simp only [setBaseline, Bool.or_eq_true, Bool.not_eq_true']
    tauto
  · intro hacc
    obtain ⟨lvl, hv⟩ := checkWindowLevel_ok_of_accepted level hacc
    constructor
    · intro hb
      constructor <;> simp [checkWindow, hv, hb]
    · intro hb
      simp only [checkWindow, hv, hb, Bool.false_eq_true, if_false]
      constructor
      · repeat' split
        all_goals rfl
      · intro hout
        repeat' split at hout
        all_goals simp_all

/-- C4 witness: with `baseline=True` the five artifacts are written and no
comparison happens; with everything present and no rebuild request nothing
is written. -/
theorem check_window_write_once_witness :
    (checkWindow (fun s => s) (PyLevel.int 1) true false true
        { folderExists := true, pageUrlFile := true, screenshotFile := true,
          level1File := true, level2File := true, level3File := true }
        { pageUrlData := "u", level1Data := [], level2Data := [],
          level3Data := [] }
        { pageUrl := "u", tags := [] }).2 =
      [BaselineFile.screenshot, BaselineFile.pageUrl, BaselineFile.level1,
        BaselineFile.level2, BaselineFile.level3] ∧
    (checkWindow (fun s => s) (PyLevel.int 1) false false true
        { folderExists := true, pageUrlFile := true, screenshotFile := true,
          level1File := true, level2File := true, level3File := true }
        { pageUrlData := "u", level1Data := [], level2Data := [],
          level3Data := [] }
        { pageUrl := "u", tags := [] }).2 = [] := by
  constructor
  · exact (((check_window_write_once (fun s => s) (PyLevel.int 1) true false
      true
      { folderExists := true, pageUrlFile := true, screenshotFile := true,
        level1File := true, level2File := true, level3File := true }
      { pageUrlData := "u", level1Data := [], level2Data := [],
        level3Data := [] }
      { pageUrl := "u", tags := [] }).2 (by decide)).1 (by decide)).1
  · exact (((check_window_write_once (fun s => s) (PyLevel.int 1) false false
      true
      { folderExists := true, pageUrlFile := true, screenshotFile := true,
        level1File := true, level2File := true, level3File := true }
      { pageUrlData := "u", level1Data := [], level2Data := [],
        level3Data := [] }
      { pageUrl := "u", tags := [] }).2 (by decide)).2 (by decide)).1

/-! ## Claims C6 and C10: tour steps, chart data points, slides

The builders `add_tour_step` (lines 7106-7199 with the five
`__add_*_tour_step` helpers), `add_data_point` (lines 6661-6698) and
`add_slide` (lines 5885-5969) mutate name-keyed dicts of fragment-string
lists on the `BaseCase` object.  The dicts are association lists here, and
each builder returns the new state together with the message of the raised
exception, if any (`none` = normal return).  Pieces of the repository that
either live outside `src/` (`js_utils.escape_quotes_if_needed`,
`page_utils.make_css_match_first_element_only`, the XPath-to-CSS converter,
`constants.Reveal`) or are irreducible Python runtime behaviour (the
`re.search` group extraction of line 7235, `str()` of a float) are bundled
as parameters in `ContentHelpers`; every theorem holds for all
interpretations of them. -/

/-- Python `s.lower()`. -/
def pyLower (s : String) : String :=
  String.mk (s.data.map Char.toLower)

/-- Association-list lookup (`d[k]` / `k in d`) for the instance dicts. -/
def alookup {α : Type} : List (String × α) → String → Option α
  | [], _ => none
  | (k, v) :: rest, key => if k = key then some v else alookup rest key

/-- Parameters standing for repository helpers whose code is not under
`src/` or whose behaviour (regex search, float formatting) is outside the
embedding; the content of the generated fragments is irrelevant to the
claims, so the theorems quantify over them. -/
structure ContentHelpers where
  escapeQuotesIfNeeded : String → String
  xpathToCss : String → String
  makeCssMatchFirstElementOnly : String → String
  shepherdClassesOf : String → String
  durationMs : String → String
  floatRepr : Rat → String
  pieChartHead : String → String
  presentationHead : String

/-- The fragment-list state of a `BaseCase` object: tours, presentations and
charts (base_case.py instance attributes `_tour_steps`,
`_presentation_slides`, `_presentation_transition`, `_chart_data`,
`_chart_label`, `_chart_first_series`, `_chart_series_count`). -/
structure AppState where
  tourSteps : List (String × List String)
  presentationSlides : List (String × List String)
  presentationTransition : List (String × String)
  chartData : List (String × List String)
  chartLabel : List (String × List String)
  chartFirstSeries : List (String × Bool)
  chartSeriesCount : List (String × Int)
  deriving DecidableEq

/-- The IntroJS tour declaration of `create_introjs_tour`
(lines 7055-7061). -/
def introjsNewTour : String :=
  "\n            // IntroJS Tour\n            function startIntro()\x7b\n"
    ++ "            var intro = introJs();\n            intro.setOptions(\x7b\n"
    ++ "            steps: [\n            "

/-- `create_introjs_tour` (lines 7042-7064): reset the named tour list to
hold just the tour declaration. -/
def createIntrojsTour (name : String) (st : AppState) : AppState :=
  let name := if name = "" then "default" else name
  { st with tourSteps := dictInsert st.tourSteps name [introjsNewTour] }

/-- `__add_shepherd_tour_step` (lines 7200-7265): theme lookup, orphan
class, button choice by position, and the rendered `tour.addStep` call.
`stepCount` is `len(self._tour_steps[name])` and `t0` is
`self._tour_steps[name][0]` (used by the `re.search` fallback). -/
def shepherdStep (H : ContentHelpers)
    (message selector name title theme alignment : String)
    (stepCount : Nat) (t0 : String) : String :=
  let shepherdTheme :=
    if theme = "default" then "shepherd-theme-default"
    else if theme = "dark" then "shepherd-theme-dark"
    else if theme = "light" then "shepherd-theme-arrows"
    else if theme = "arrows" then "shepherd-theme-arrows"
    else if theme = "square" then "shepherd-theme-square"
    else if theme = "square-dark" then "shepherd-theme-square-dark"
    else H.shepherdClassesOf t0
  let shepherdClasses :=
    if selector = "html" then shepherdTheme ++ " shepherd-orphan"
    else shepherdTheme
  let buttons := if stepCount > 1 then "midTourButtons" else "firstStepButtons"
  "tour.addStep(\x27" ++ name ++ "\x27, \x7b\n"
    ++ "                    title: \x27" ++ title ++ "\x27,\n"
    ++ "                    classes: \x27" ++ shepherdClasses ++ "\x27,\n"
    ++ "                    text: \x27" ++ message ++ "\x27,\n"
    ++ "                    attachTo: \x7belement: \x27" ++ selector
    ++ "\x27, on: \x27" ++ alignment ++ "\x27\x7d,\n"
    ++ "                    buttons: " ++ buttons ++ ",\n"
    ++ "                    advanceOn: \x27.docs-link click\x27\n"
    ++ "                \x7d);"

/-- `__add_bootstrap_tour_step` (lines 7267-7321). -/
def bootstrapStep (H : ContentHelpers)
    (message selector title alignment duration : String) : String :=
  let p :=
    if selector ≠ "html" then
      let s2 := H.makeCssMatchFirstElementOnly selector
      (s2, "element: \x27" ++ s2 ++ "\x27,")
    else (selector, "")
  let selector := p.1
  let elementRow := p.2
  let duration := if duration = "" then "0" else H.durationMs duration
  let bd :=
    if selector = "html" then "backdrop: false," else "backdrop: true,"
  "\x7b\n                " ++ elementRow ++ "\n"
    ++ "                title: \x27" ++ title ++ "\x27,\n"
    ++ "                content: \x27" ++ message ++ "\x27,\n"
    ++ "                orphan: true,\n"
    ++ "                autoscroll: true,\n"
    ++ "                " ++ bd ++ "\n"
    ++ "                placement: \x27auto " ++ alignment ++ "\x27,\n"
    ++ "                smartPlacement: true,\n"
    ++ "                duration: " ++ duration ++ ",\n"
    ++ "                \x7d,"

/-- `__add_driverjs_tour_step` (lines 7323-7371). -/
def driverjsStep (message selector title alignment : String) : String :=
  let message :=
    "<font size=\"3\" color=\"#33477B\"><b>" ++ message ++ "</b></font>"
  let p :=
    if title = "" then ("title: \x27" ++ message ++ "\x27,", "")
    else ("title: \x27" ++ title ++ "\x27,", message)
  let titleRow := p.1
  let message := p.2
  let q :=
    if selector = "" || selector = "html" || selector = "body" then
      ("body", "animate: false,", "position: \x27mid-center\x27,")
    else (selector, "animate: true,", "position: \x27" ++ alignment ++ "\x27,")
  let selector := q.1
  let aniRow := q.2.1
  let alignRow := q.2.2
  let elementRow := "element: \x27" ++ selector ++ "\x27,"
  let descRow := "description: \x27" ++ message ++ "\x27,"
  "\x7b\n                " ++ elementRow ++ "\n"
    ++ "                " ++ aniRow ++ "\n"
    ++ "                popover: \x7b\n"
    ++ "                  className: \x27popover-class\x27,\n"
    ++ "                  " ++ titleRow ++ "\n"
    ++ "                  " ++ descRow ++ "\n"
    ++ "                  " ++ alignRow ++ "\n"
    ++ "                \x7d\n"
    ++ "                \x7d,"

/-- `__add_hopscotch_tour_step` (lines 7373-7410). -/
def hopscotchStep (message selector title alignment : String) : String :=
  let q :=
    if selector = "" || selector = "html" then
      ("head", "bottom", "arrowOffset: \x27200\x27,")
    else (selector, alignment, "")
  let selector := q.1
  let alignment := q.2.1
  let arrowOffsetRow := q.2.2
  "\x7b\n                target: \x27" ++ selector ++ "\x27,\n"
    ++ "                title: \x27" ++ title ++ "\x27,\n"
    ++ "                content: \x27" ++ message ++ "\x27,\n"
    ++ "                " ++ arrowOffsetRow ++ "\n"
    ++ "                showPrevButton: \x27true\x27,\n"
    ++ "                scrollDuration: \x27550\x27,\n"
    ++ "                placement: \x27" ++ alignment ++ "\x27\x7d,\n"
    ++ "                "

/-- `__add_introjs_tour_step` (lines 7412-7443). -/
def introjsStep (message selector title alignment : String) : String :=
  let elementRow :=
    if selector ≠ "html" then "element: \x27" ++ selector ++ "\x27," else ""
  let message :=
    if title ≠ "" then
      "<center><b>" ++ title ++ "</b></center><hr>" ++ message
    else message
  let message :=
    "<font size=\"3\" color=\"#33477B\">" ++ message ++ "</font>"
  "\x7b" ++ elementRow ++ "\n"
    ++ "            intro: \x27" ++ message ++ "\x27,\n"
    ++ "            position: \x27" ++ alignment ++ "\x27\x7d,"

/-- The effective tour-list name chosen by `add_tour_step`: a `name=N`
selector overwrites the `name` parameter (the Python code reuses the local
variable `name` on line 7124), and an empty name falls back to
`"default"`. -/
def tourEffectiveName (selector name : String) : String :=
  let selector := if selector = "" then "html" else selector
  let name :=
    if is_name_selector selector then get_name_from_selector selector
    else name
  if name = "" then "default" else name

/-- The selector rewriting of `add_tour_step` (lines 7121-7128): default to
`"html"`, rewrite `name=N`, convert XPath to CSS, escape quotes. -/
def tourStepSelector (H : ContentHelpers) (selector : String) : String :=
  let selector := if selector = "" then "html" else selector
  let selector :=
    if is_name_selector selector then
      "[name=\"" ++ get_name_from_selector selector ++ "\"]"
    else selector
  let selector :=
    if is_xpath_selector selector then H.xpathToCss selector else selector
  H.escapeQuotesIfNeeded selector

/-- `BaseCase.add_tour_step` (lines 7093-7199).  Falsy (`None`/empty)
string arguments are modelled as `""`.  The returned `Option String` is the
raised exception (`IndexError` when the stored tour list is empty, which no
reachable state produces). -/
def addTourStep (H : ContentHelpers)
    (message selector name title theme alignment duration : String)
    (st : AppState) : AppState × Option String :=
  let sel := tourStepSelector H selector
  let nm := tourEffectiveName selector name
  let st :=
    if (alookup st.tourSteps nm).isSome then st
    else createIntrojsTour nm st
  let title := H.escapeQuotesIfNeeded title
  let message := if message ≠ "" then H.escapeQuotesIfNeeded message else ""
  match alookup st.tourSteps nm with
  | none => (st, some "KeyError")
  | some steps =>
      match steps with
      | [] => (st, some "IndexError")
      | t0 :: _ =>
          let alignment :=
            if alignment = "" ||
                !(["top", "bottom", "left", "right"].contains alignment) then
              if !(strContains t0 "Hopscotch") && !(strContains t0 "DriverJS")
              then "top" else "bottom"
            else alignment
          let step :=
            if strContains t0 "Bootstrap" then
              bootstrapStep H message sel title alignment duration
            else if strContains t0 "DriverJS" then
              driverjsStep message sel title alignment
            else if strContains t0 "Hopscotch" then
              hopscotchStep message sel title alignment
            else if strContains t0 "IntroJS" then
              introjsStep message sel title alignment
            else
              shepherdStep H message sel nm title theme alignment
                steps.length t0
          ({ st with tourSteps := dictInsert st.tourSteps nm (steps ++ [step]) },
            none)

/-- `create_presentation` as invoked with default arguments by `add_slide`'s
auto-create path (lines 5777-5883: default theme `serif`, default transition
`none`; the generated HTML head of lines 5859-5878 is the
`presentationHead` parameter). -/
def createPresentationDefault (H : ContentHelpers) (name : String)
    (st : AppState) : AppState :=
  let name := if name = "" then "default" else name
  { st with
    presentationSlides :=
      dictInsert st.presentationSlides name [H.presentationHead],
    presentationTransition :=
      dictInsert st.presentationTransition name "none" }

/-- The transition whitelist of lines 5928-5935. -/
def validTransitions : List String :=
  ["none", "slide", "fade", "zoom", "convex", "concave"]

/-- The exception text of lines 5938-5941. -/
def transitionErrMsg (t : String) : String :=
  "Transition \x7b" ++ t ++ "\x7d not found! Valid transitions: "
    ++ "[\x27none\x27, \x27slide\x27, \x27fade\x27, \x27zoom\x27, "
    ++ "\x27convex\x27, \x27concave\x27]"

/-- The slide HTML of lines 5942-5967. -/
def slideHtml (content image code iframe content2 notes transition : String) :
    String :=
  let addLine := if pyStartsWith content "<" then "\n" else ""
  let html :=
    "\n<section data-transition=\"" ++ transition ++ "\">" ++ addLine
      ++ content
  let html :=
    if image ≠ "" then
      html ++ "\n<div flex_div><img rounded src=\"" ++ image ++ "\" /></div>"
    else html
  let html :=
    if code ≠ "" then
      html ++ "\n<div></div>"
        ++ "\n<pre class=\"prettyprint\">\n" ++ code ++ "</pre>"
    else html
  let html :=
    if iframe ≠ "" then
      html ++ "\n<div></div>"
        ++ "\n<iframe src=\"" ++ iframe ++ "\" style=\"width:92%;height:550px;\" "
        ++ "title=\"iframe content\"></iframe>"
    else html
  let addLine2 := if pyStartsWith content2 "<" then "\n" else ""
  let html := if content2 ≠ "" then html ++ addLine2 ++ content2 else html
  html ++ "\n<aside class=\"notes\">" ++ notes ++ "</aside>" ++ "\n</section>\n"

/-- `BaseCase.add_slide` (lines 5885-5969). -/
def addSlide (H : ContentHelpers)
    (content image code iframe content2 notes transition name : String)
    (st : AppState) : AppState × Option String :=
  let name := if name = "" then "default" else name
  let st :=
    if (alookup st.presentationSlides name).isSome then st
    else createPresentationDefault H name st
  let transitionOpt :=
    if transition = "" then alookup st.presentationTransition name
    else if transition = "default" then some "none"
    else some transition
  match transitionOpt with
  | none => (st, some "KeyError")
  | some transition =>
      let transition := pyLower transition
      if !(validTransitions.contains transition) then
        (st, some (transitionErrMsg transition))
      else
        match alookup st.presentationSlides name with
        | none => (st, some "KeyError")
        | some slides =>
            ({ st with
                presentationSlides :=
                  dictInsert st.presentationSlides name
                    (slides ++
                      [slideHtml content image code iframe content2 notes
                        transition]) },
              none)

/-- A Python value passed as the `value` argument of `add_data_point`. -/
inductive PyValue where
  | none
  | int (n : Int)
  | float (q : Rat)
  | str (s : String)
  | bool (b : Bool)
  deriving DecidableEq

/-- Python truthiness of a `PyValue`. -/
def pyTruthy : PyValue → Bool
  | PyValue.none => false
  | PyValue.int n => decide (n ≠ 0)
  | PyValue.float q => decide (q ≠ 0)
  | PyValue.str s => decide (s ≠ "")
  | PyValue.bool b => b

/-- `type(value) is int or type(value) is float` (line 6679; note that a
Python `bool` fails this check even though `bool` subclasses `int`). -/
def pyNumeric : PyValue → Bool
  | PyValue.int _ => true
  | PyValue.float _ => true
  | _ => false

/-- Python `str(value)` for the values that reach the fragment template. -/
def pyValueStr (H : ContentHelpers) : PyValue → String
  | PyValue.int n => toString n
  | PyValue.float q => H.floatRepr q
  | PyValue.none => "None"
  | PyValue.str s => s
  | PyValue.bool b => if b then "True" else "False"

/-- The exception text of line 6680. -/
def numericValueErrMsg : String :=
  "Expecting a numeric value for \"value\"!"

/-- `create_pie_chart` as invoked with default arguments by
`add_data_point`'s auto-create path: the state effects of lines 6628-6632
(the long generated chart head of the preceding lines is the `pieChartHead`
parameter). -/
def createPieChartDefault (H : ContentHelpers) (chartName : String)
    (st : AppState) : AppState :=
  { st with
    chartData := dictInsert st.chartData chartName [H.pieChartHead chartName],
    chartLabel := dictInsert st.chartLabel chartName [],
    chartFirstSeries := dictInsert st.chartFirstSeries chartName true,
    chartSeriesCount := dictInsert st.chartSeriesCount chartName 1 }

/-- The data-point fragment of lines 6685-6695, from the already-escaped
label and color and the rendered numeric value. -/
def dataPointFragment (label y color : String) : String :=
  "\n            \x7b\n            name: \x27" ++ label ++ "\x27,\n"
    ++ "            y: " ++ y ++ ",\n"
    ++ "            color: \x27" ++ color ++ "\x27\n"
    ++ "            \x7d,\n            "

/-- `BaseCase.add_data_point` (lines 6661-6698).  The `color=None` default
is modelled as `""` (both are falsy and are replaced by `""`). -/
def addDataPoint (H : ContentHelpers) (label : String) (value : PyValue)
    (color : String) (chartName : String) (st : AppState) :
    AppState × Option String :=
  let chartName := if chartName = "" then "default" else chartName
  let st :=
    if (alookup st.chartData chartName).isSome then st
    else createPieChartDefault H chartName st
  let value := if pyTruthy value then value else PyValue.int 0
  if !(pyNumeric value) then
    (st, some numericValueErrMsg)
  else
    let label := pyReplace label "\x27" "\\\x27"
    let color := pyReplace color "\x27" "\\\x27"
    let dataPoint := dataPointFragment label (pyValueStr H value) color
    match alookup st.chartData chartName with
    | none => (st, some "KeyError")
    | some chart =>
        let st :=
          { st with
            chartData := dictInsert st.chartData chartName
              (chart ++ [dataPoint]) }
        match alookup st.chartFirstSeries chartName with
        | none => (st, some "KeyError")
        | some firstSeries =>
            if firstSeries then
              match alookup st.chartLabel chartName with
              | none => (st, some "KeyError")
              | some labels =>
                  ({ st with
                      chartLabel := dictInsert st.chartLabel chartName
                        (labels ++ [label]) },
                    none)
            else (st, none)

/-- Lookup after inserting the same key. -/
theorem alookup_dictInsert_self {α : Type} (m : List (String × α))
    (k : String) (v : α) : alookup (dictInsert m k v) k = some v := by
  induction m with
  | nil => simp [dictInsert, alookup]
  | cons q rest ih =>
      obtain ⟨k2, v2⟩ := q
      by_cases h : k2 = k
      · simp [dictInsert, h, alookup]
      · simp [dictInsert, h, alookup, ih]

/-- Lookup after inserting a different key. -/
theorem alookup_dictInsert_ne {α : Type} (m : List (String × α))
    {k k' : String} (v : α) (h : k' ≠ k) :
    alookup (dictInsert m k v) k' = alookup m k' := by
  have hnk : ¬ (k = k') := fun hk => h hk.symm
  induction m with
  | nil =>
      simp [dictInsert, alookup, hnk]
  | cons q rest ih =>
      obtain ⟨k2, v2⟩ := q
      by_cases h2 : k2 = k
      · subst h2
        simp [dictInsert, alookup, hnk]
      · by_cases h3 : k2 = k'
        · simp [dictInsert, h2, alookup, h3, h]
        · simp [dictInsert, h2, alookup, h3, ih]

/-- The append-only relation on fragment dicts: every stored list is still
there, extended at most at its end. -/
def extendsFragments (old new : List (String × List String)) : Prop :=
  ∀ k v, alookup old k = some v → ∃ w, alookup new k = some (v ++ w)

/-- Unchanged dicts are extensions. -/
theorem extendsFragments_refl (m : List (String × List String)) :
    extendsFragments m m :=
  fun _ v h => ⟨[], by rw [h, List.append_nil]⟩

/-- Inserting an absent key is an extension. -/
theorem extendsFragments_newKey {m : List (String × List String)}
    {k : String} (h : alookup m k = none) (l : List String) :
    extendsFragments m (dictInsert m k l) := by
  intro k' v hv
  by_cases hk : k' = k
  · subst hk
    rw [h] at hv
    exact Option.noConfusion hv
  · refine ⟨[], ?_⟩
    rw [alookup_dictInsert_ne _ _ hk, hv, List.append_nil]

/-- Appending to a stored list is an extension. -/
theorem extendsFragments_append {m : List (String × List String)}
    {k : String} {old : List String} (h : alookup m k = some old)
    (step : String) :
    extendsFragments m (dictInsert m k (old ++ [step])) := by
  intro k' v hv
  by_cases hk : k' = k
  · subst hk
    rw [h] at hv
    obtain rfl := Option.some.inj hv
    exact ⟨[step], by rw [alookup_dictInsert_self]⟩
  · refine ⟨[], ?_⟩
    rw [alookup_dictInsert_ne _ _ hk, hv, List.append_nil]

/-- Extensions compose. -/
theorem extendsFragments_trans {a b c : List (String × List String)}
    (h1 : extendsFragments a b) (h2 : extendsFragments b c) :
    extendsFragments a c := by
  intro k v hv
  obtain ⟨w1, hw1⟩ := h1 k v hv
  obtain ⟨w2, hw2⟩ := h2 k _ hw1
  exact ⟨w1 ++ w2, by rw [hw2, List.append_assoc]⟩

/-- The effective tour name is never empty. -/
theorem tourEffectiveName_ne_empty (selector name : String) :
    tourEffectiveName selector name ≠ "" := by
  unfold tourEffectiveName
  dsimp only
  by_cases h :
      (if is_name_selector (if selector = "" then "html" else selector) = true
        then get_name_from_selector (if selector = "" then "html" else selector)
        else name) = ""
  · rw [if_pos h]
    simp
  · rw [if_neg h]
    exact h

/-- Behaviour of `add_tour_step` on the fragment state: the tour dict is
only extended, the other fragment dicts are untouched, and a non-raising
call appends exactly one step to the effective tour list (whose base is the
previous list, or the fresh IntroJS declaration when the tour was
auto-created). -/
theorem addTourStep_spec (H : ContentHelpers)
    (message selector name title theme alignment duration : String)
    (st : AppState) :
    extendsFragments st.tourSteps
      (addTourStep H message selector name title theme alignment duration
        st).1.tourSteps ∧
    (addTourStep H message selector name title theme alignment duration
        st).1.presentationSlides = st.presentationSlides ∧
    (addTourStep H message selector name title theme alignment duration
        st).1.chartData = st.chartData ∧
    (addTourStep H message selector name title theme alignment duration
        st).1.chartLabel = st.chartLabel ∧
    ((addTourStep H message selector name title theme alignment duration
        st).2 = none →
      ∃ step,
        alookup (addTourStep H message selector name title theme alignment
            duration st).1.tourSteps (tourEffectiveName selector name) =
          some ((alookup st.tourSteps
              (tourEffectiveName selector name)).getD [introjsNewTour]
            ++ [step])) := by
  have hnm : tourEffectiveName selector name ≠ "" :=
    tourEffectiveName_ne_empty selector name
  set nm := tourEffectiveName selector name with hnmdef
  simp only [addTourStep, createIntrojsTour, ← hnmdef, if_neg hnm]
  rcases h : alookup st.tourSteps nm with _ | steps
  · simp only [h, Option.isSome_none, Bool.false_eq_true, if_false,
      alookup_dictInsert_self]
    refine ⟨?_, ?_, ?_, ?_, ?_⟩
    · exact extendsFragments_trans (extendsFragments_newKey h _)
        (extendsFragments_append (alookup_dictInsert_self _ _ _) _)
    · first | rfl | trivial
    · first | rfl | trivial
    · first | rfl | trivial
    · intro _
      exact ⟨_, rfl⟩
  · simp only [h, Option.isSome_some, eq_self_iff_true, if_true]
    cases steps with
    | nil =>
        refine ⟨extendsFragments_refl _, ?_, ?_, ?_, ?_⟩ <;>
          first
            | rfl
            | trivial
            | simp
    | cons t0 rest =>
        refine ⟨extendsFragments_append h _, ?_, ?_, ?_, ?_⟩
        · first | rfl | trivial
        · first | rfl | trivial
        · first | rfl | trivial
        · intro _
          exact ⟨_, alookup_dictInsert_self _ _ _⟩

/-- Behaviour of `add_slide` on the fragment state: the slide dict is only
extended, the other fragment dicts are untouched, and a non-raising call
appends exactly one slide to the effective presentation (whose base is the
previous list, or the fresh presentation head when auto-created). -/
theorem addSlide_spec (H : ContentHelpers)
    (content image code iframe content2 notes transition pname : String)
    (st : AppState) :
    extendsFragments st.presentationSlides
      (addSlide H content image code iframe content2 notes transition pname
        st).1.presentationSlides ∧
    (addSlide H content image code iframe content2 notes transition pname
        st).1.tourSteps = st.tourSteps ∧
    (addSlide H content image code iframe content2 notes transition pname
        st).1.chartData = st.chartData ∧
    (addSlide H content image code iframe content2 notes transition pname
        st).1.chartLabel = st.chartLabel ∧
    ((addSlide H content image code iframe content2 notes transition pname
        st).2 = none →
      ∃ slide,
        alookup (addSlide H content image code iframe content2 notes
            transition pname st).1.presentationSlides
            (if pname = "" then "default" else pname) =
          some ((alookup st.presentationSlides
              (if pname = "" then "default" else pname)).getD
              [H.presentationHead] ++ [slide])) := by
  have hnm : (if pname = "" then "default" else pname) ≠ "" := by
    by_cases hp : pname = "" <;> simp [hp]
  set nm := if pname = "" then "default" else pname with hnmdef
  simp only [addSlide, createPresentationDefault, ← hnmdef, if_neg hnm]
  rcases h : alookup st.presentationSlides nm with _ | slides
  · simp only [h, Option.isSome_none, Bool.false_eq_true, if_false]
    rcases htr : (if transition = "" then
        alookup (dictInsert st.presentationTransition nm "none") nm
      else if transition = "default" then some "none" else some transition)
      with _ | tval
    · simp only [htr]
      refine ⟨extendsFragments_newKey h _, ?_, ?_, ?_, ?_⟩ <;>
        first
          | rfl
          | trivial
          | simp
    · simp only [htr]
      by_cases hvalid : (!(validTransitions.contains (pyLower tval))) = true
      · rw [if_pos hvalid]
        refine ⟨extendsFragments_newKey h _, ?_, ?_, ?_, ?_⟩ <;>
          first
            | rfl
            | trivial
            | simp
      · rw [if_neg hvalid]
        simp only [alookup_dictInsert_self]
        refine ⟨?_, ?_, ?_, ?_, ?_⟩
        · exact extendsFragments_trans (extendsFragments_newKey h _)
            (extendsFragments_append (alookup_dictInsert_self _ _ _) _)
        · first | rfl | trivial
        · first | rfl | trivial
        · first | rfl | trivial
        · intro _
          exact ⟨_, rfl⟩
  · simp only [h, Option.isSome_some, eq_self_iff_true, if_true]
    rcases htr : (if transition = "" then
        alookup st.presentationTransition nm
      else if transition = "default" then some "none" else some transition)
      with _ | tval
    · simp only [htr]
      refine ⟨extendsFragments_refl _, ?_, ?_, ?_, ?_⟩ <;>
        first
          | rfl
          | trivial
          | simp
    · simp only [htr]
      by_cases hvalid : (!(validTransitions.contains (pyLower tval))) = true
      · rw [if_pos hvalid]
        refine ⟨extendsFragments_refl _, ?_, ?_, ?_, ?_⟩ <;>
          first
            | rfl
            | trivial
            | simp
      · rw [if_neg hvalid]
        simp only [h]
        refine ⟨extendsFragments_append h _, ?_, ?_, ?_, ?_⟩
        · first | rfl | trivial
        · first | rfl | trivial
        · first | rfl | trivial
        · intro _
          exact ⟨_, alookup_dictInsert_self _ _ _⟩

/-- Behaviour of `add_data_point` on the fragment state: the chart-data
dict is only extended, the tour and slide dicts are untouched, and a
non-raising call appends exactly one data-point fragment to the effective
chart (whose base is the previous list, or the fresh chart head when
auto-created). -/
theorem addDataPoint_spec (H : ContentHelpers) (label : String)
    (value : PyValue) (color chartName : String) (st : AppState) :
    extendsFragments st.chartData
      (addDataPoint H label value color chartName st).1.chartData ∧
    (addDataPoint H label value color chartName st).1.tourSteps =
      st.tourSteps ∧
    (addDataPoint H label value color chartName st).1.presentationSlides =
      st.presentationSlides ∧
    ((addDataPoint H label value color chartName st).2 = none →
      ∃ point,
        alookup (addDataPoint H label value color chartName st).1.chartData
            (if chartName = "" then "default" else chartName) =
          some ((alookup st.chartData
              (if chartName = "" then "default" else chartName)).getD
              [H.pieChartHead (if chartName = "" then "default" else chartName)]
            ++ [point])) := by
  set nm := if chartName = "" then "default" else chartName with hnmdef
  simp only [addDataPoint, createPieChartDefault, ← hnmdef]
  rcases h : alookup st.chartData nm with _ | chart
  · simp only [h, Option.isSome_none, Bool.false_eq_true, if_false]
    by_cases hnum :
        (!(pyNumeric (if pyTruthy value then value else PyValue.int 0))) = true
    · rw [if_pos hnum]
      refine ⟨extendsFragments_newKey h _, ?_, ?_, ?_⟩ <;>
        first
          | rfl
          | trivial
          | simp
    · rw [if_neg hnum]
      simp only [alookup_dictInsert_self, eq_self_iff_true, if_true]
      refine ⟨?_, ?_, ?_, ?_⟩
      · exact extendsFragments_trans (extendsFragments_newKey h _)
          (extendsFragments_append (alookup_dictInsert_self _ _ _) _)
      · first | rfl | trivial
      · first | rfl | trivial
      · intro _
        exact ⟨_, rfl⟩
  · simp only [h, Option.isSome_some, eq_self_iff_true, if_true]
    by_cases hnum :
        (!(pyNumeric (if pyTruthy value then value else PyValue.int 0))) = true
    · rw [if_pos hnum]
      refine ⟨extendsFragments_refl _, ?_, ?_, ?_⟩ <;>
        first
          | rfl
          | trivial
          | simp
    · rw [if_neg hnum]
      try simp only [h]
      rcases hfs : alookup st.chartFirstSeries nm with _ | fsv
      · simp only [hfs]
        refine ⟨extendsFragments_append h _, ?_, ?_, ?_⟩ <;>
          first
            | rfl
            | trivial
            | simp
      · simp only [hfs]
        cases fsv with
        | false =>
            simp only [Bool.false_eq_true, if_false]
            refine ⟨extendsFragments_append h _, ?_, ?_, ?_⟩
            · first | rfl | trivial
            · first | rfl | trivial
            · intro _
              exact ⟨_, alookup_dictInsert_self _ _ _⟩
        | true =>
            simp only [eq_self_iff_true, if_true]
            rcases hlb : alookup st.chartLabel nm with _ | labels
            · simp only [hlb]
              refine ⟨extendsFragments_append h _, ?_, ?_, ?_⟩ <;>
                first
                  | rfl
                  | trivial
                  | simp
            · simp only [hlb]
              refine ⟨extendsFragments_append h _, ?_, ?_, ?_⟩
              · first | rfl | trivial
              · first | rfl | trivial
              · intro _
                exact ⟨_, alookup_dictInsert_self _ _ _⟩

/-- A concrete interpretation of the helper parameters, used by witnesses
and counterexamples. -/
def trivialHelpers : ContentHelpers where
  escapeQuotesIfNeeded := fun s => s
  xpathToCss := fun s => s
  makeCssMatchFirstElementOnly := fun s => s
  shepherdClassesOf := fun _ => "shepherd-theme-arrows"
  durationMs := fun s => s
  floatRepr := fun _ => "0.0"
  pieChartHead := fun _ => "CHART_HEAD"
  presentationHead := "PRES_HEAD"

/-- A fresh `BaseCase` fragment state. -/
def emptyState : AppState where
  tourSteps := []
  presentationSlides := []
  presentationTransition := []
  chartData := []
  chartLabel := []
  chartFirstSeries := []
  chartSeriesCount := []

/-- A state holding one presentation with one stored fragment. -/
def slideCexState : AppState where
  tourSteps := []
  presentationSlides := [("default", ["PRES_HEAD"])]
  presentationTransition := [("default", "none")]
  chartData := []
  chartLabel := []
  chartFirstSeries := []
  chartSeriesCount := []

/-- C6 (amended): every non-raising call to `add_tour_step`,
`add_data_point` or `add_slide` appends exactly one pre-rendered fragment
string to the fragment list stored under the effective name (defaulting to
`"default"`, auto-creating the named container when absent), and no call —
raising or not — removes or mutates a previously appended fragment of any
tour, presentation or chart list; a call that raises (invalid slide
transition, non-numeric chart value) appends nothing, though it may still
have auto-created the container. -/
theorem builders_append_only (H : ContentHelpers)
    (message selector name title theme alignment duration : String)
    (content image code iframe content2 notes transition pname : String)
    (label : String) (value : PyValue) (color chartName : String)
    (st : AppState) :
    (extendsFragments st.tourSteps
      (addTourStep H message selector name title theme alignment duration
        st).1.tourSteps ∧
    (addTourStep H message selector name title theme alignment duration
        st).1.presentationSlides = st.presentationSlides ∧
    (addTourStep H message selector name title theme alignment duration
        st).1.chartData = st.chartData ∧
    (addTourStep H message selector name title theme alignment duration
        st).1.chartLabel = st.chartLabel ∧
    ((addTourStep H message selector name title theme alignment duration
        st).2 = none →
      ∃ step,
        alookup (addTourStep H message selector name title theme alignment
            duration st).1.tourSteps (tourEffectiveName selector name) =
          some ((alookup st.tourSteps
              (tourEffectiveName selector name)).getD [introjsNewTour]
            ++ [step]))) ∧
    (extendsFragments st.presentationSlides
      (addSlide H content image code iframe content2 notes transition pname
        st).1.presentationSlides ∧
    (addSlide H content image code iframe content2 notes transition pname
        st).1.tourSteps = st.tourSteps ∧
    (addSlide H content image code iframe content2 notes transition pname
        st).1.chartData = st.chartData ∧
    (addSlide H content image code iframe content2 notes transition pname
        st).1.chartLabel = st.chartLabel ∧
    ((addSlide H content image code iframe content2 notes transition pname
        st).2 = none →
      ∃ slide,
        alookup (addSlide H content image code iframe content2 notes
            transition pname st).1.presentationSlides
            (if pname = "" then "default" else pname) =
          some ((alookup st.presentationSlides
              (if pname = "" then "default" else pname)).getD
              [H.presentationHead] ++ [slide]))) ∧
    (extendsFragments st.chartData
      (addDataPoint H label value color chartName st).1.chartData ∧
    (addDataPoint H label value color chartName st).1.tourSteps =
      st.tourSteps ∧
    (addDataPoint H label value color chartName st).1.presentationSlides =
      st.presentationSlides ∧
    ((addDataPoint H label value color chartName st).2 = none →
      ∃ point,
        alookup (addDataPoint H label value color chartName st).1.chartData
            (if chartName = "" then "default" else chartName) =
          some ((alookup st.chartData
              (if chartName = "" then "default" else chartName)).getD
              [H.pieChartHead (if chartName = "" then "default" else chartName)]
            ++ [point]))) :=
  ⟨addTourStep_spec H message selector name title theme alignment duration st,
    addSlide_spec H content image code iframe content2 notes transition pname
      st,
    addDataPoint_spec H label value color chartName st⟩

/-- C6 counterexample: an `add_slide` call with an invalid transition raises
and appends nothing, so not every call appends exactly one fragment. -/
theorem add_slide_invalid_transition_counterexample :
    (addSlide trivialHelpers "hi" "" "" "" "" "" "bogus" ""
        slideCexState).2 = some (transitionErrMsg "bogus") ∧
    (addSlide trivialHelpers "hi" "" "" "" "" "" "bogus" ""
        slideCexState).1 = slideCexState := by
  constructor
  · rfl
  · rfl

/-- C6 witness: on a fresh state, one call to each builder appends exactly
one fragment to the auto-created container. -/
theorem builders_append_only_witness :
    (∃ step,
      alookup (addTourStep trivialHelpers "m" "#btn" "" "" "" "" ""
          emptyState).1.tourSteps (tourEffectiveName "#btn" "") =
        some ((alookup emptyState.tourSteps
            (tourEffectiveName "#btn" "")).getD [introjsNewTour]
          ++ [step])) ∧
    (∃ slide,
      alookup (addSlide trivialHelpers "c" "" "" "" "" "" "" ""
          emptyState).1.presentationSlides "default" =
        some ((alookup emptyState.presentationSlides "default").getD
            [trivialHelpers.presentationHead] ++ [slide])) ∧
    (∃ point,
      alookup (addDataPoint trivialHelpers "lbl" (PyValue.int 2) "" ""
          emptyState).1.chartData "default" =
        some ((alookup emptyState.chartData "default").getD
            [trivialHelpers.pieChartHead "default"] ++ [point])) := by
  have h := builders_append_only trivialHelpers "m" "#btn" "" "" "" "" ""
    "c" "" "" "" "" "" "" "" "lbl" (PyValue.int 2) "" "" emptyState
  exact ⟨h.1.2.2.2.2 rfl, h.2.1.2.2.2.2 rfl, h.2.2.2.2.2 rfl⟩

/-- C10: `add_data_point` first replaces a falsy value by `0`, then raises
exactly when the resulting value is neither an int nor a float; on that
error the chart state is unchanged except that a missing chart was
auto-created first; on success it appends exactly one data-point fragment in
which single quotes of the label and the color are backslash-escaped.  The
hypothesis is the reachable-state invariant that a chart's first-series
flag and label list exist whenever its data list does. -/
theorem add_data_point_semantics (H : ContentHelpers) (label : String)
    (value : PyValue) (color chartName : String) (st : AppState)
    (hcons : ∀ k, (alookup st.chartData k).isSome = true →
      (alookup st.chartFirstSeries k).isSome = true ∧
      (alookup st.chartLabel k).isSome = true) :
    ((addDataPoint H label value color chartName st).2 =
      if pyNumeric (if pyTruthy value then value else PyValue.int 0) then
        none
      else some numericValueErrMsg) ∧
    (pyNumeric (if pyTruthy value then value else PyValue.int 0) = false →
      (addDataPoint H label value color chartName st).1 =
        if (alookup st.chartData
            (if chartName = "" then "default" else chartName)).isSome then st
        else createPieChartDefault H
          (if chartName = "" then "default" else chartName) st) ∧
    (pyNumeric (if pyTruthy value then value else PyValue.int 0) = true →
      alookup (addDataPoint H label value color chartName st).1.chartData
          (if chartName = "" then "default" else chartName) =
        some ((alookup st.chartData
            (if chartName = "" then "default" else chartName)).getD
            [H.pieChartHead (if chartName = "" then "default" else chartName)]
          ++ [dataPointFragment (pyReplace label "\x27" "\\\x27")
              (pyValueStr H (if pyTruthy value then value else PyValue.int 0))
              (pyReplace color "\x27" "\\\x27")])) := by
  set nm := if chartName = "" then "default" else chartName with hnmdef
  simp only [addDataPoint, createPieChartDefault, ← hnmdef]
  rcases h : alookup st.chartData nm with _ | chart
  · simp only [h, Option.isSome_none, Bool.false_eq_true, if_false]
    by_cases hnum :
        pyNumeric (if pyTruthy value then value else PyValue.int 0) = true
    · have hnn :
          ¬((!(pyNumeric (if pyTruthy value then value else PyValue.int 0)))
            = true) := by
        simp [hnum]
      rw [if_neg hnn]
      simp only [alookup_dictInsert_self, eq_self_iff_true, if_true, hnum]
      refine ⟨?_, ?_, ?_⟩
      · first | rfl | trivial
      · intro hc
        first
          | exact Bool.noConfusion hc
          | (rw [hnum] at hc; exact Bool.noConfusion hc)
      · intro _
        first | rfl | exact alookup_dictInsert_self _ _ _
    · have hf :
          pyNumeric (if pyTruthy value then value else PyValue.int 0)
            = false := by
        simpa using hnum
      have hnn :
          (!(pyNumeric (if pyTruthy value then value else PyValue.int 0)))
            = true := by
        simp [hf]
      rw [if_pos hnn]
      refine ⟨by simp [hf], fun _ => rfl, ?_⟩
      intro hc
      first
        | exact Bool.noConfusion hc
        | (rw [hf] at hc; exact Bool.noConfusion hc)
  · simp only [h, Option.isSome_some, eq_self_iff_true, if_true]
    by_cases hnum :
        pyNumeric (if pyTruthy value then value else PyValue.int 0) = true
    · have hnn :
          ¬((!(pyNumeric (if pyTruthy value then value else PyValue.int 0)))
            = true) := by
        simp [hnum]
      rw [if_neg hnn]
      try simp only [h]
      obtain ⟨hfs, hlb⟩ := hcons nm (by rw [h]; rfl)
      obtain ⟨fsv, hfsv⟩ := Option.isSome_iff_exists.mp hfs
      obtain ⟨lbl, hlbv⟩ := Option.isSome_iff_exists.mp hlb
      simp only [hfsv, hlbv]
      cases fsv with
      | true =>
          simp only [eq_self_iff_true, if_true, hnum]
          refine ⟨?_, ?_, ?_⟩
          · first | rfl | trivial
          · intro hc
            first
              | exact Bool.noConfusion hc
              | (rw [hnum] at hc; exact Bool.noConfusion hc)
          · intro _
            first | rfl | exact alookup_dictInsert_self _ _ _
      | false =>
          simp only [Bool.false_eq_true, if_false, hnum]
          refine ⟨?_, ?_, ?_⟩
          · first | rfl | trivial
          · intro hc
            first
              | exact Bool.noConfusion hc
              | (rw [hnum] at hc; exact Bool.noConfusion hc)
          · intro _
            first | rfl | exact alookup_dictInsert_self _ _ _
    · have hf :
          pyNumeric (if pyTruthy value then value else PyValue.int 0)
            = false := by
        simpa using hnum
      have hnn :
          (!(pyNumeric (if pyTruthy value then value else PyValue.int 0)))
            = true := by
        simp [hf]
      rw [if_pos hnn]
      refine ⟨by simp [hf], fun _ => rfl, ?_⟩
      intro hc
      first
        | exact Bool.noConfusion hc
        | (rw [hf] at hc; exact Bool.noConfusion hc)

/-- C10 witness: adding an int data point to a fresh state succeeds and
stores the fragment with the label's single quote escaped. -/
theorem add_data_point_semantics_witness :
    (addDataPoint trivialHelpers "Bob\x27s" (PyValue.int 7) "" ""
        emptyState).2 = none ∧
    alookup (addDataPoint trivialHelpers "Bob\x27s" (PyValue.int 7) "" ""
        emptyState).1.chartData "default" =
      some ([trivialHelpers.pieChartHead "default"] ++
        [dataPointFragment (pyReplace "Bob\x27s" "\x27" "\\\x27") "7"
          (pyReplace "" "\x27" "\\\x27")]) := by
  have h := add_data_point_semantics trivialHelpers "Bob\x27s"
    (PyValue.int 7) "" "" emptyState
    (fun k hk => by simp [alookup] at hk)
  exact ⟨h.1.trans rfl, (h.2.2 rfl).trans rfl⟩

/-! ## Claim C7: the typing step of `update_text`

Lines 489-518 of `update_text`: try to send the text; a
`StaleElementReferenceException` or `ElementNotInteractableException`
triggers one `wait_for_ready_state_complete`, a 0.16-second sleep, a
re-wait for visibility, a `clear()` and one retype — whose own failure
propagates unconverted; any other exception from the first attempt is
converted into a generic `Exception` with the message of
`__get_improved_exception_message`. -/

/-- The kind of a raised Python exception, as `update_text` distinguishes
them. -/
inductive ExcKind where
  | stale
  | eni
  | other (name : String)
  deriving DecidableEq

/-- Result of one attempted driver action. -/
inductive AttemptResult where
  | ok
  | exc (k : ExcKind)
  deriving DecidableEq

/-- Observable actions of the typing step.  `sendKeys` stands for the whole
send block of lines 493-501 (or 509-515 in the retry), including its
conditional ready-state wait; sleeps are in milliseconds. -/
inductive TypeAction where
  | sendKeys
  | waitReady
  | sleep (ms : Nat)
  | waitVisible
  | clear
  deriving DecidableEq

/-- How the typing step ends. -/
inductive TypingOutcome where
  | success
  | genericRaise (msg : String)
  | rawRaise (k : ExcKind)
  deriving DecidableEq

/-- `BaseCase.__get_improved_exception_message` (lines 9146-9168). -/
def getImprovedExceptionMessage (browser excMessage : String) : String :=
  if browser = "chrome"
      && strContains excMessage "unknown error: call function result missing"
  then
    "Your version of ChromeDriver may be out-of-date! "
      ++ "Please go to "
      ++ "https://sites.google.com/a/chromium.org/chromedriver/ "
      ++ "and download the latest version to your system PATH! "
      ++ "Or use: ``seleniumbase install chromedriver`` . "
      ++ "Original Exception Message: " ++ excMessage
  else excMessage

/-- The typing step of `update_text` (lines 489-518).  `firstResult` is
the outcome of the first send block, `retryResult` the outcome of the whole
retry block (clear plus retype) inside the stale/not-interactable handler,
and `excMessage` the text of the first exception. -/
def updateTextTyping (browser : String)
    (firstResult retryResult : AttemptResult) (excMessage : String) :
    List TypeAction × TypingOutcome :=
  match firstResult with
  | AttemptResult.ok => ([TypeAction.sendKeys], TypingOutcome.success)
  | AttemptResult.exc ExcKind.stale =>
      ([TypeAction.sendKeys, TypeAction.waitReady, TypeAction.sleep 160,
        TypeAction.waitVisible, TypeAction.clear, TypeAction.sendKeys],
        match retryResult with
        | AttemptResult.ok => TypingOutcome.success
        | AttemptResult.exc k => TypingOutcome.rawRaise k)
  | AttemptResult.exc ExcKind.eni =>
      ([TypeAction.sendKeys, TypeAction.waitReady, TypeAction.sleep 160,
        TypeAction.waitVisible, TypeAction.clear, TypeAction.sendKeys],
        match retryResult with
        | AttemptResult.ok => TypingOutcome.success
        | AttemptResult.exc k => TypingOutcome.rawRaise k)
  | AttemptResult.exc (ExcKind.other _) =>
      ([TypeAction.sendKeys],
        TypingOutcome.genericRaise
          (getImprovedExceptionMessage browser excMessage))

/-- C7 (amended): a FIRST-attempt failure that is neither stale nor
not-interactable is re-raised as a generic Exception whose message comes
from `__get_improved_exception_message`; a stale or not-interactable first
failure triggers exactly one ready-state wait, a fixed 0.16 s sleep, a
re-wait for visibility, a clear and a single retype — and a failure during
that retry propagates as-is, without being converted to the generic
Exception. -/
theorem update_text_typing_semantics (browser excMessage : String)
    (firstResult retryResult : AttemptResult) :
    (∀ n, firstResult = AttemptResult.exc (ExcKind.other n) →
      (updateTextTyping browser firstResult retryResult excMessage).2 =
        TypingOutcome.genericRaise
          (getImprovedExceptionMessage browser excMessage)) ∧
    ((firstResult = AttemptResult.exc ExcKind.stale ∨
        firstResult = AttemptResult.exc ExcKind.eni) →
      (updateTextTyping browser firstResult retryResult excMessage).1 =
        [TypeAction.sendKeys, TypeAction.waitReady, TypeAction.sleep 160,
          TypeAction.waitVisible, TypeAction.clear, TypeAction.sendKeys] ∧
      (retryResult = AttemptResult.ok →
        (updateTextTyping browser firstResult retryResult excMessage).2 =
          TypingOutcome.success) ∧
      (∀ k, retryResult = AttemptResult.exc k →
        (updateTextTyping browser firstResult retryResult excMessage).2 =
          TypingOutcome.rawRaise k)) ∧
    (firstResult = AttemptResult.ok →
      (updateTextTyping browser firstResult retryResult excMessage).1 =
        [TypeAction.sendKeys] ∧
      (updateTextTyping browser firstResult retryResult excMessage).2 =
        TypingOutcome.success) := by
  refine ⟨?_, ?_, ?_⟩
  · intro n hf
    subst hf
    rfl
  · intro hf
    rcases hf with hf | hf <;> subst hf <;>
      refine ⟨rfl, fun hr => by subst hr; rfl, fun k hr => by subst hr; rfl⟩
  · intro hf
    subst hf
    exact ⟨rfl, rfl⟩

/-- C7 witness: a first-attempt WebDriverException becomes the generic
Exception with the improved message; a stale first failure leads to one
sleep-and-retry. -/
theorem update_text_typing_semantics_witness :
    (updateTextTyping "chrome"
        (AttemptResult.exc (ExcKind.other "WebDriverException"))
        AttemptResult.ok
        "unknown error: call function result missing").2 =
      TypingOutcome.genericRaise
        (getImprovedExceptionMessage "chrome"
          "unknown error: call function result missing") ∧
    (updateTextTyping "chrome" (AttemptResult.exc ExcKind.stale)
        AttemptResult.ok "boom").2 = TypingOutcome.success :=
  ⟨(update_text_typing_semantics "chrome"
      "unknown error: call function result missing"
      (AttemptResult.exc (ExcKind.other "WebDriverException"))
      AttemptResult.ok).1 "WebDriverException" rfl,
    ((update_text_typing_semantics "chrome" "boom"
      (AttemptResult.exc ExcKind.stale) AttemptResult.ok).2.1
      (Or.inl rfl)).2.1 rfl⟩

/-- C7 counterexample: when the retry inside the stale handler fails with an
exception that is neither stale nor not-interactable, `update_text` raises
that exception unconverted — not the generic Exception the claim
prescribes. -/
theorem update_text_retry_raw_counterexample :
    (updateTextTyping "chrome" (AttemptResult.exc ExcKind.stale)
        (AttemptResult.exc (ExcKind.other "InvalidElementStateException"))
        "boom").2 =
      TypingOutcome.rawRaise (ExcKind.other "InvalidElementStateException") ∧
    (updateTextTyping "chrome" (AttemptResult.exc ExcKind.stale)
        (AttemptResult.exc (ExcKind.other "InvalidElementStateException"))
        "boom").2 ≠
      TypingOutcome.genericRaise
        (getImprovedExceptionMessage "chrome" "boom") := by
  constructor
  · rfl
  · intro hc
    rw [show (updateTextTyping "chrome" (AttemptResult.exc ExcKind.stale)
        (AttemptResult.exc (ExcKind.other "InvalidElementStateException"))
        "boom").2 =
      TypingOutcome.rawRaise (ExcKind.other "InvalidElementStateException")
      from rfl] at hc
    exact TypingOutcome.noConfusion hc

/-! ## Claim C8: the shadow-DOM text polling loops

`__wait_for_shadow_text_visible` (lines 5264-5293) and
`__wait_for_exact_shadow_text_visible` (lines 5295-5324): a `for` loop of
`int(SMALL_TIMEOUT * 10)` iterations, each reading the shadow text,
returning `True` on a match, and otherwise sleeping 0.1 s unless the
deadline has passed; after the loop one final unprotected read either
returns `True`, raises the `ElementNotVisibleException` timeout, or — when
the read itself fails — propagates that read's exception.  The reads are
an oracle `getText : Nat → Option String` indexed by call count (`none` =
the read raised); the deadline checks are an oracle `deadline`. -/

/-- Observable actions of the polling loop (sleeps in milliseconds). -/
inductive WaitAction where
  | poll (i : Nat)
  | sleep (ms : Nat)
  deriving DecidableEq

/-- How a shadow-text wait ends. -/
inductive ShadowWaitResult where
  | ok
  | timeoutException (msg : String)
  | readException
  deriving DecidableEq

/-- Loop result: trace, whether a poll matched, and the index of the next
(final) read. -/
structure LoopOut where
  trace : List WaitAction
  found : Bool
  next : Nat
  deriving DecidableEq

/-- The `for x in range(...)` loop shared by both waiters (lines 5267-5284
and 5298-5315): `mtc i = some true` means the i-th read succeeded and
the text matched; `some false` a successful read without match (the
in-loop `timeout_exception` is caught by the `except`); `none` a read that
raised. -/
def shadowWaitLoop (mtc : Nat → Option Bool) (deadline : Nat → Bool) :
    Nat → Nat → LoopOut
  | 0, i => ⟨[], false, i⟩
  | fuel + 1, i =>
      if mtc i = some true then ⟨[WaitAction.poll i], true, i⟩
      else if deadline i then ⟨[WaitAction.poll i], false, i + 1⟩
      else
        let r := shadowWaitLoop mtc deadline fuel (i + 1)
        ⟨WaitAction.poll i :: WaitAction.sleep 100 :: r.trace, r.found, r.next⟩

/-- The timeout message of lines 5288-5291. -/
def shadowTimeoutMsg (text selector : String) : String :=
  "Expected text \x7b" ++ text ++ "\x7d in element \x7b" ++ selector
    ++ "\x7d was not visible!"

/-- The timeout message of lines 5319-5321. -/
def shadowExactTimeoutMsg (text selector : String) : String :=
  "Expected exact text \x7b" ++ text ++ "\x7d in element \x7b" ++ selector
    ++ "\x7d was not visible!"

/-- `BaseCase.__wait_for_shadow_text_visible` (lines 5264-5293). -/
def waitForShadowTextVisible (getText : Nat → Option String)
    (deadline : Nat → Bool) (smallTimeout : Nat) (text selector : String) :
    List WaitAction × ShadowWaitResult :=
  let mtc := fun i =>
    (getText i).map (fun actual => strContains (pyStrip actual) (pyStrip text))
  let r := shadowWaitLoop mtc deadline (smallTimeout * 10) 0
  if r.found then (r.trace, ShadowWaitResult.ok)
  else
    match getText r.next with
    | none => (r.trace ++ [WaitAction.poll r.next], ShadowWaitResult.readException)
    | some actual =>
        if strContains (pyStrip actual) (pyStrip text) then
          (r.trace ++ [WaitAction.poll r.next], ShadowWaitResult.ok)
        else
          (r.trace ++ [WaitAction.poll r.next],
            ShadowWaitResult.timeoutException (shadowTimeoutMsg text selector))

/-- `BaseCase.__wait_for_exact_shadow_text_visible` (lines 5295-5324). -/
def waitForExactShadowTextVisible (getText : Nat → Option String)
    (deadline : Nat → Bool) (smallTimeout : Nat) (text selector : String) :
    List WaitAction × ShadowWaitResult :=
  let mtc := fun i =>
    (getText i).map (fun actual => pyStrip actual == pyStrip text)
  let r := shadowWaitLoop mtc deadline (smallTimeout * 10) 0
  if r.found then (r.trace, ShadowWaitResult.ok)
  else
    match getText r.next with
    | none => (r.trace ++ [WaitAction.poll r.next], ShadowWaitResult.readException)
    | some actual =>
        if pyStrip actual == pyStrip text then
          (r.trace ++ [WaitAction.poll r.next], ShadowWaitResult.ok)
        else
          (r.trace ++ [WaitAction.poll r.next],
            ShadowWaitResult.timeoutException
              (shadowExactTimeoutMsg text selector))

/-- Is an action a shadow-text read? -/
def isPoll : WaitAction → Bool
  | WaitAction.poll _ => true
  | WaitAction.sleep _ => false

/-- Number of reads in a trace. -/
def pollCount (tr : List WaitAction) : Nat :=
  (tr.filter isPoll).length

/-- Structural facts about the polling loop: at most `fuel` reads, every
sleep is 0.1 s, and a poll matched exactly when `found` is set. -/
theorem shadowWaitLoop_spec (mtc : Nat → Option Bool)
    (deadline : Nat → Bool) :
    ∀ fuel i,
      pollCount (shadowWaitLoop mtc deadline fuel i).trace ≤ fuel ∧
      (∀ ms, WaitAction.sleep ms ∈
        (shadowWaitLoop mtc deadline fuel i).trace → ms = 100) ∧
      ((shadowWaitLoop mtc deadline fuel i).found = true ↔
        ∃ j, WaitAction.poll j ∈
            (shadowWaitLoop mtc deadline fuel i).trace ∧
          mtc j = some true) := by
  intro fuel
  induction fuel with
  | zero =>
      intro i
      refine ⟨by simp [shadowWaitLoop, pollCount], ?_, ?_⟩
      · intro ms hms
        simp [shadowWaitLoop] at hms
      · simp [shadowWaitLoop]
  | succ fuel ih =>
      intro i
      by_cases hm : mtc i = some true
      · refine ⟨?_, ?_, ?_⟩
        · simp [shadowWaitLoop, hm, pollCount, isPoll]
        · intro ms hms
          simp [shadowWaitLoop, hm] at hms
        · simp only [shadowWaitLoop, hm, if_pos]
          constructor
          · intro _
            exact ⟨i, by simp, hm⟩
          · intro _
            trivial
      · by_cases hd : deadline i = true
        · refine ⟨?_, ?_, ?_⟩
          · simp [shadowWaitLoop, hm, hd, pollCount, isPoll]
          · intro ms hms
            simp [shadowWaitLoop, hm, hd] at hms
          · simp only [shadowWaitLoop, hm, hd, if_neg, if_pos,
              Bool.false_eq_true]
            constructor
            · intro hc
              exact Bool.noConfusion hc
            · rintro ⟨j, hj, hmj⟩
              simp [hm, hd] at hj
              rw [hj] at hmj
              exact absurd hmj hm
        · obtain ⟨ih1, ih2, ih3⟩ := ih (i + 1)
          refine ⟨?_, ?_, ?_⟩
          · simpa [shadowWaitLoop, hm, hd, pollCount, isPoll,
              Nat.add_comm] using Nat.add_le_add_right ih1 1
          · intro ms hms
            simp only [shadowWaitLoop, hm, hd, Bool.false_eq_true, if_false,
              List.mem_cons] at hms
            rcases hms with hms | hms | hms
            · exact WaitAction.noConfusion hms
            · exact WaitAction.sleep.inj hms
            · exact ih2 ms hms
          · simp only [shadowWaitLoop, hm, hd, Bool.false_eq_true, if_false]
            constructor
            · intro hf
              obtain ⟨j, hj, hmj⟩ := ih3.mp hf
              exact ⟨j, by simp [hj], hmj⟩
            · rintro ⟨j, hj, hmj⟩
              simp only [List.mem_cons] at hj
              rcases hj with hj | hj | hj
              · rw [WaitAction.poll.inj hj] at hmj
                exact absurd hmj hm
              · exact WaitAction.noConfusion hj
              · exact ih3.mpr ⟨j, hj, hmj⟩

/-- `pollCount` distributes over append. -/
theorem pollCount_append (a b : List WaitAction) :
    pollCount (a ++ b) = pollCount a + pollCount b := by
  simp [pollCount, List.filter_append]

/-- Full behaviour of `__wait_for_shadow_text_visible`: at most
`SMALL_TIMEOUT * 10` loop reads plus one final read, all sleeps fixed at
0.1 s, `True` exactly when some read matched, and otherwise either the
timeout exception with its message or the final read's own exception. -/
theorem waitForShadowTextVisible_spec (getText : Nat → Option String)
    (deadline : Nat → Bool) (t : Nat) (text selector : String) :
    pollCount (waitForShadowTextVisible getText deadline t text
        selector).1 ≤ t * 10 + 1 ∧
    (∀ ms, WaitAction.sleep ms ∈
      (waitForShadowTextVisible getText deadline t text selector).1 →
      ms = 100) ∧
    ((waitForShadowTextVisible getText deadline t text selector).2 =
        ShadowWaitResult.ok ↔
      ∃ j, WaitAction.poll j ∈
          (waitForShadowTextVisible getText deadline t text selector).1 ∧
        (getText j).map
          (fun actual => strContains (pyStrip actual) (pyStrip text)) =
          some true) ∧
    ((waitForShadowTextVisible getText deadline t text selector).2 ≠
        ShadowWaitResult.ok →
      (waitForShadowTextVisible getText deadline t text selector).2 =
        ShadowWaitResult.timeoutException (shadowTimeoutMsg text selector) ∨
      (waitForShadowTextVisible getText deadline t text selector).2 =
        ShadowWaitResult.readException) := by
  obtain ⟨h1, h2, h3⟩ := shadowWaitLoop_spec
    (fun i => (getText i).map
      (fun actual => strContains (pyStrip actual) (pyStrip text)))
    deadline (t * 10) 0
  simp only [waitForShadowTextVisible]
  set r := shadowWaitLoop
    (fun i => (getText i).map
      (fun actual => strContains (pyStrip actual) (pyStrip text)))
    deadline (t * 10) 0 with hr
  have hnotf : r.found = false →
      ¬∃ j, WaitAction.poll j ∈ r.trace ∧
        (getText j).map
          (fun actual => strContains (pyStrip actual) (pyStrip text)) =
          some true := by
    intro hff hex
    rw [h3.mpr hex] at hff
    exact Bool.noConfusion hff
  by_cases hf : r.found = true
  · rw [if_pos hf]
    refine ⟨Nat.le_succ_of_le (le_trans h1 (Nat.le_refl _)), h2, ?_, ?_⟩
    · exact ⟨fun _ => h3.mp hf, fun _ => rfl⟩
    · intro hc
      exact absurd rfl hc
  · rw [if_neg hf]
    have hff : r.found = false := by
      rcases hb : r.found with _ | _
      · rfl
      · exact absurd hb hf
    rcases hg : getText r.next with _ | actual
    · dsimp only
      refine ⟨?_, ?_, ?_, ?_⟩
      · rw [pollCount_append]
        exact Nat.add_le_add h1 (Nat.le_refl 1)
      · intro ms hms
        rcases List.mem_append.mp hms with hms | hms
        · exact h2 ms hms
        · simp at hms
      · constructor
        · intro hc
          exact absurd hc.symm (by intro hx; exact ShadowWaitResult.noConfusion hx)
        · rintro ⟨j, hj, hmj⟩
          rcases List.mem_append.mp hj with hj | hj
          · exact absurd ⟨j, hj, hmj⟩ (hnotf hff)
          · simp only [List.mem_singleton] at hj
            rw [WaitAction.poll.inj hj, hg] at hmj
            exact Option.noConfusion hmj
      · intro _
        exact Or.inr rfl
    · dsimp only
      by_cases hmt : strContains (pyStrip actual) (pyStrip text) = true
      · rw [if_pos hmt]
        refine ⟨?_, ?_, ?_, ?_⟩
        · rw [pollCount_append]
          exact Nat.add_le_add h1 (Nat.le_refl 1)
        · intro ms hms
          rcases List.mem_append.mp hms with hms | hms
          · exact h2 ms hms
          · simp at hms
        · refine ⟨fun _ => ?_, fun _ => rfl⟩
          refine ⟨r.next, List.mem_append.mpr (Or.inr (by simp)), ?_⟩
          rw [hg]
          simp [hmt]
        · intro hc
          exact absurd rfl hc
      · rw [if_neg hmt]
        refine ⟨?_, ?_, ?_, ?_⟩
        · rw [pollCount_append]
          exact Nat.add_le_add h1 (Nat.le_refl 1)
        · intro ms hms
          rcases List.mem_append.mp hms with hms | hms
          · exact h2 ms hms
          · simp at hms
        · constructor
          · intro hc
            exact absurd hc.symm (by intro hx; exact ShadowWaitResult.noConfusion hx)
          · rintro ⟨j, hj, hmj⟩
            rcases List.mem_append.mp hj with hj | hj
            · exact absurd ⟨j, hj, hmj⟩ (hnotf hff)
            · simp only [List.mem_singleton] at hj
              rw [WaitAction.poll.inj hj, hg] at hmj
              exact absurd (Option.some.inj hmj) hmt
        · intro _
          exact Or.inl rfl

/-- Full behaviour of `__wait_for_exact_shadow_text_visible`, mirroring
`waitForShadowTextVisible_spec` with the exact-equality matcher. -/
theorem waitForExactShadowTextVisible_spec (getText : Nat → Option String)
    (deadline : Nat → Bool) (t : Nat) (text selector : String) :
    pollCount (waitForExactShadowTextVisible getText deadline t text
        selector).1 ≤ t * 10 + 1 ∧
    (∀ ms, WaitAction.sleep ms ∈
      (waitForExactShadowTextVisible getText deadline t text selector).1 →
      ms = 100) ∧
    ((waitForExactShadowTextVisible getText deadline t text selector).2 =
        ShadowWaitResult.ok ↔
      ∃ j, WaitAction.poll j ∈
          (waitForExactShadowTextVisible getText deadline t text
            selector).1 ∧
        (getText j).map (fun actual => pyStrip actual == pyStrip text) =
          some true) ∧
    ((waitForExactShadowTextVisible getText deadline t text selector).2 ≠
        ShadowWaitResult.ok →
      (waitForExactShadowTextVisible getText deadline t text selector).2 =
        ShadowWaitResult.timeoutException
          (shadowExactTimeoutMsg text selector) ∨
      (waitForExactShadowTextVisible getText deadline t text selector).2 =
        ShadowWaitResult.readException) := by
  obtain ⟨h1, h2, h3⟩ := shadowWaitLoop_spec
    (fun i => (getText i).map (fun actual => pyStrip actual == pyStrip text))
    deadline (t * 10) 0
  simp only [waitForExactShadowTextVisible]
  set r := shadowWaitLoop
    (fun i => (getText i).map (fun actual => pyStrip actual == pyStrip text))
    deadline (t * 10) 0 with hr
  have hnotf : r.found = false →
      ¬∃ j, WaitAction.poll j ∈ r.trace ∧
        (getText j).map (fun actual => pyStrip actual == pyStrip text) =
          some true := by
    intro hff hex
    rw [h3.mpr hex] at hff
    exact Bool.noConfusion hff
  by_cases hf : r.found = true
  · rw [if_pos hf]
    refine ⟨Nat.le_succ_of_le h1, h2, ?_, ?_⟩
    · exact ⟨fun _ => h3.mp hf, fun _ => rfl⟩
    · intro hc
      exact absurd rfl hc
  · rw [if_neg hf]
    have hff : r.found = false := by
      rcases hb : r.found with _ | _
      · rfl
      · exact absurd hb hf
    rcases hg : getText r.next with _ | actual
    · dsimp only
      refine ⟨?_, ?_, ?_, ?_⟩
      · rw [pollCount_append]
        exact Nat.add_le_add h1 (Nat.le_refl 1)
      · intro ms hms
        rcases List.mem_append.mp hms with hms | hms
        · exact h2 ms hms
        · simp at hms
      · constructor
        · intro hc
          exact absurd hc.symm (by intro hx; exact ShadowWaitResult.noConfusion hx)
        · rintro ⟨j, hj, hmj⟩
          rcases List.mem_append.mp hj with hj | hj
          · exact absurd ⟨j, hj, hmj⟩ (hnotf hff)
          · simp only [List.mem_singleton] at hj
            rw [WaitAction.poll.inj hj, hg] at hmj
            exact Option.noConfusion hmj
      · intro _
        exact Or.inr rfl
    · dsimp only
      by_cases hmt : (pyStrip actual == pyStrip text) = true
      · rw [if_pos hmt]
        refine ⟨?_, ?_, ?_, ?_⟩
        · rw [pollCount_append]
          exact Nat.add_le_add h1 (Nat.le_refl 1)
        · intro ms hms
          rcases List.mem_append.mp hms with hms | hms
          · exact h2 ms hms
          · simp at hms
        · refine ⟨fun _ => ?_, fun _ => rfl⟩
          refine ⟨r.next, List.mem_append.mpr (Or.inr (by simp)), ?_⟩
          rw [hg]
          simp [hmt]
        · intro hc
          exact absurd rfl hc
      · rw [if_neg hmt]
        refine ⟨?_, ?_, ?_, ?_⟩
        · rw [pollCount_append]
          exact Nat.add_le_add h1 (Nat.le_refl 1)
        · intro ms hms
          rcases List.mem_append.mp hms with hms | hms
          · exact h2 ms hms
          · simp at hms
        · constructor
          · intro hc
            exact absurd hc.symm (by intro hx; exact ShadowWaitResult.noConfusion hx)
          · rintro ⟨j, hj, hmj⟩
            rcases List.mem_append.mp hj with hj | hj
            · exact absurd ⟨j, hj, hmj⟩ (hnotf hff)
            · simp only [List.mem_singleton] at hj
              rw [WaitAction.poll.inj hj, hg] at hmj
              exact absurd (Option.some.inj hmj) (by simpa using hmt)
        · intro _
          exact Or.inl rfl

/-- C8 (amended): both shadow-DOM text waits are polling loops with a fixed
0.1-second sleep, at most `SMALL_TIMEOUT * 10` iterations plus one final
check (so they always terminate), returning `True` exactly when a read
matched; once the deadline has passed without a match they raise the
timeout exception with its fixed message — unless the final unprotected
read of the shadow element itself raises, in which case that exception
propagates instead. -/
theorem shadow_text_wait_semantics (getText : Nat → Option String)
    (deadline : Nat → Bool) (t : Nat) (text selector : String) :
    (pollCount (waitForShadowTextVisible getText deadline t text
        selector).1 ≤ t * 10 + 1 ∧
    (∀ ms, WaitAction.sleep ms ∈
      (waitForShadowTextVisible getText deadline t text selector).1 →
      ms = 100) ∧
    ((waitForShadowTextVisible getText deadline t text selector).2 =
        ShadowWaitResult.ok ↔
      ∃ j, WaitAction.poll j ∈
          (waitForShadowTextVisible getText deadline t text selector).1 ∧
        (getText j).map
          (fun actual => strContains (pyStrip actual) (pyStrip text)) =
          some true) ∧
    ((waitForShadowTextVisible getText deadline t text selector).2 ≠
        ShadowWaitResult.ok →
      (waitForShadowTextVisible getText deadline t text selector).2 =
        ShadowWaitResult.timeoutException (shadowTimeoutMsg text selector) ∨
      (waitForShadowTextVisible getText deadline t text selector).2 =
        ShadowWaitResult.readException)) ∧
    (pollCount (waitForExactShadowTextVisible getText deadline t text
        selector).1 ≤ t * 10 + 1 ∧
    (∀ ms, WaitAction.sleep ms ∈
      (waitForExactShadowTextVisible getText deadline t text selector).1 →
      ms = 100) ∧
    ((waitForExactShadowTextVisible getText deadline t text selector).2 =
        ShadowWaitResult.ok ↔
      ∃ j, WaitAction.poll j ∈
          (waitForExactShadowTextVisible getText deadline t text
            selector).1 ∧
        (getText j).map (fun actual => pyStrip actual == pyStrip text) =
          some true) ∧
    ((waitForExactShadowTextVisible getText deadline t text selector).2 ≠
        ShadowWaitResult.ok →
      (waitForExactShadowTextVisible getText deadline t text selector).2 =
        ShadowWaitResult.timeoutException
          (shadowExactTimeoutMsg text selector) ∨
      (waitForExactShadowTextVisible getText deadline t text selector).2 =
        ShadowWaitResult.readException)) :=
  ⟨waitForShadowTextVisible_spec getText deadline t text selector,
    waitForExactShadowTextVisible_spec getText deadline t text selector⟩

/-- C8 counterexample: when the shadow element cannot be read at all, the
deadline passes without a match and the final read raises its own
exception, not the timeout exception the claim prescribes. -/
theorem shadow_text_wait_read_exception_counterexample :
    (waitForShadowTextVisible (fun _ => Option.none) (fun _ => true) 1
        "hi" "#s").2 = ShadowWaitResult.readException ∧
    (waitForShadowTextVisible (fun _ => Option.none) (fun _ => true) 1
        "hi" "#s").2 ≠
      ShadowWaitResult.timeoutException (shadowTimeoutMsg "hi" "#s") := by
  constructor
  · rfl
  · intro hc
    rw [show (waitForShadowTextVisible (fun _ => Option.none)
        (fun _ => true) 1 "hi" "#s").2 = ShadowWaitResult.readException
      from rfl] at hc
    exact ShadowWaitResult.noConfusion hc

/-- C8 witness: with a readable matching text the wait returns `True`; with
a readable non-matching text it raises the timeout exception. -/
theorem shadow_text_wait_semantics_witness :
    (waitForShadowTextVisible (fun _ => some "hello world")
        (fun _ => false) 1 "hello" "#s").2 = ShadowWaitResult.ok ∧
    (waitForShadowTextVisible (fun _ => some "goodbye")
        (fun _ => true) 1 "hello" "#s").2 =
      ShadowWaitResult.timeoutException (shadowTimeoutMsg "hello" "#s") := by
  constructor
  · exact (shadow_text_wait_semantics (fun _ => some "hello world")
      (fun _ => false) 1 "hello" "#s").1.2.2.1.mpr
      ⟨0, by decide, by decide⟩
  · have h := (shadow_text_wait_semantics (fun _ => some "goodbye")
      (fun _ => true) 1 "hello" "#s").1.2.2.2 (by decide)
    rcases h with h | h
    · exact h
    · exact absurd h (by decide)

/-! ## Claim C1: the retry/fallback chain of `click`

Lines 201-318 of `BaseCase.click`: after waiting for visibility and
scrolling, the main attempt (native click; jQuery for IE link text; JS or
jQuery for Safari; a headless new-tab special case for `target="_blank"`
anchors) runs under a `try` whose handlers are: stale reference → ready
wait, 0.16 s sleep, re-wait, scroll, one retry; not-interactable → ready
wait, 0.1 s sleep, re-wait, possible new-tab special case, scroll, one
retry; `WebDriverException`/`MoveTargetOutOfBoundsException` → ready wait,
JS click, then jQuery click, then one more re-wait and native click.
Driver outcomes are oracles in `ClickEnv`. -/

/-- What the main `try` block of `click` can raise, as distinguished by the
except clauses (in their order): stale reference, element not interactable,
any other WebDriver-level error (including `MoveTargetOutOfBounds`), or an
unrelated exception that no clause catches. -/
inductive ClickExc where
  | stale
  | eni
  | webdriver
  | unrelated (name : String)
  deriving DecidableEq

/-- Result of one attempted driver action inside `click`. -/
inductive ClickTry where
  | ok
  | exc (k : ClickExc)
  deriving DecidableEq

/-- Observable actions of a `click` call (sleeps in milliseconds). -/
inductive ClickAction where
  | waitVisible
  | scroll
  | nativeClick
  | jsClick
  | jqueryClick
  | waitReady
  | sleep (ms : Nat)
  | openNewWindow
  | openHref
  | switchBackWindow
  deriving DecidableEq

/-- How a `click` call ends. -/
inductive ClickOutcome where
  | success
  | rawRaise (k : ClickExc)
  deriving DecidableEq

/-- The driver-level oracles and mode flags of one `click` call. -/
structure ClickEnv where
  browser : String
  byLinkText : Bool
  scrollFlag : Bool
  headless : Bool
  headlessNewTabAnchor : Bool
  eniNewTabAnchor : Bool
  firstResult : ClickTry
  staleRetryResult : ClickTry
  eniRetryResult : ClickTry
  jsResult : ClickTry
  jqueryResult : ClickTry
  finalResult : ClickTry
  deriving DecidableEq

/-- Lines 201-206: the initial visibility wait and conditional scroll. -/
def clickPre (env : ClickEnv) : List ClickAction :=
  ClickAction.waitVisible ::
    (if env.scrollFlag then [ClickAction.scroll] else [])

/-- The kind of the main attempt (lines 209-247): jQuery for IE with link
text, JS/jQuery for Safari, native otherwise. -/
def mainAttempt (env : ClickEnv) : ClickAction :=
  if env.browser = "ie" && env.byLinkText then ClickAction.jqueryClick
  else if env.browser = "safari" then
    if env.byLinkText then ClickAction.jqueryClick else ClickAction.jsClick
  else ClickAction.nativeClick

/-- The click retried inside the stale and not-interactable handlers
(lines 258-264 and 299-305): Safari falls back to jQuery/JS, every other
browser retries the native click. -/
def handlerClick (env : ClickEnv) : ClickAction :=
  if env.browser = "safari" then
    if env.byLinkText then ClickAction.jqueryClick else ClickAction.jsClick
  else ClickAction.nativeClick

/-- Does the headless new-tab special case of lines 222-243 fire (headless
mode, an anchor with `target="_blank"` and a page-URL href, outside the
IE/Safari branches)? -/
def headlessSkip (env : ClickEnv) : Bool :=
  !(env.browser = "ie" && env.byLinkText) && !(env.browser = "safari")
    && env.headless && env.headlessNewTabAnchor

/-- `BaseCase.click` (lines 172-318), from the visibility wait through the
retry/fallback cascade.  The post-click new-tab switching of lines 319
onward is outside the claims. -/
def click (env : ClickEnv) : List ClickAction × ClickOutcome :=
  let pre := clickPre env
  if headlessSkip env then
    (pre ++ [ClickAction.openNewWindow, ClickAction.openHref,
      ClickAction.switchBackWindow], ClickOutcome.success)
  else
    let att := mainAttempt env
    match env.firstResult with
    | ClickTry.ok => (pre ++ [att], ClickOutcome.success)
    | ClickTry.exc ClickExc.stale =>
        (pre ++ [att, ClickAction.waitReady, ClickAction.sleep 160,
          ClickAction.waitVisible, ClickAction.scroll, handlerClick env],
          match env.staleRetryResult with
          | ClickTry.ok => ClickOutcome.success
          | ClickTry.exc k => ClickOutcome.rawRaise k)
    | ClickTry.exc ClickExc.eni =>
        if env.eniNewTabAnchor then
          (pre ++ [att, ClickAction.waitReady, ClickAction.sleep 100,
            ClickAction.waitVisible, ClickAction.openNewWindow,
            ClickAction.openHref, ClickAction.switchBackWindow],
            ClickOutcome.success)
        else
          (pre ++ [att, ClickAction.waitReady, ClickAction.sleep 100,
            ClickAction.waitVisible, ClickAction.scroll, handlerClick env],
            match env.eniRetryResult with
            | ClickTry.ok => ClickOutcome.success
            | ClickTry.exc k => ClickOutcome.rawRaise k)
    | ClickTry.exc ClickExc.webdriver =>
        match env.jsResult with
        | ClickTry.ok =>
            (pre ++ [att, ClickAction.waitReady, ClickAction.jsClick],
              ClickOutcome.success)
        | ClickTry.exc _ =>
            match env.jqueryResult with
            | ClickTry.ok =>
                (pre ++ [att, ClickAction.waitReady, ClickAction.jsClick,
                  ClickAction.jqueryClick], ClickOutcome.success)
            | ClickTry.exc _ =>
                (pre ++ [att, ClickAction.waitReady, ClickAction.jsClick,
                  ClickAction.jqueryClick, ClickAction.waitVisible,
                  ClickAction.nativeClick],
                  match env.finalResult with
                  | ClickTry.ok => ClickOutcome.success
                  | ClickTry.exc k => ClickOutcome.rawRaise k)
    | ClickTry.exc (ClickExc.unrelated n) =>
        (pre ++ [att], ClickOutcome.rawRaise (ClickExc.unrelated n))

/-- Is an action a click attempt (native, JS or jQuery)? -/
def isClickAttempt : ClickAction → Bool
  | ClickAction.nativeClick => true
  | ClickAction.jsClick => true
  | ClickAction.jqueryClick => true
  | _ => false

/-- The subsequence of click attempts in a trace. -/
def clickAttempts (tr : List ClickAction) : List ClickAction :=
  tr.filter isClickAttempt

/-- The initial wait/scroll contains no click attempt. -/
theorem clickAttempts_clickPre (env : ClickEnv) :
    clickAttempts (clickPre env) = [] := by
  by_cases h : env.scrollFlag = true <;>
    simp [clickAttempts, clickPre, h, isClickAttempt]

/-- `clickAttempts` distributes over append. -/
theorem clickAttempts_append (a b : List ClickAction) :
    clickAttempts (a ++ b) = clickAttempts a ++ clickAttempts b := by
  simp [clickAttempts, List.filter_append]

/-- The main attempt is always a click attempt. -/
theorem isClickAttempt_mainAttempt (env : ClickEnv) :
    isClickAttempt (mainAttempt env) = true := by
  unfold mainAttempt
  repeat' split
  all_goals rfl

/-- The handler retry is always a click attempt. -/
theorem isClickAttempt_handlerClick (env : ClickEnv) :
    isClickAttempt (handlerClick env) = true := by
  unfold handlerClick
  repeat' split
  all_goals rfl

@[simp]
theorem isClickAttempt_waitReady : isClickAttempt ClickAction.waitReady = false := rfl

@[simp]
theorem isClickAttempt_sleep (ms : Nat) :
    isClickAttempt (ClickAction.sleep ms) = false := rfl

@[simp]
theorem isClickAttempt_waitVisible :
    isClickAttempt ClickAction.waitVisible = false := rfl

@[simp]
theorem isClickAttempt_scroll : isClickAttempt ClickAction.scroll = false := rfl

@[simp]
theorem isClickAttempt_openNewWindow :
    isClickAttempt ClickAction.openNewWindow = false := rfl

@[simp]
theorem isClickAttempt_openHref :
    isClickAttempt ClickAction.openHref = false := rfl

@[simp]
theorem isClickAttempt_switchBackWindow :
    isClickAttempt ClickAction.switchBackWindow = false := rfl

@[simp]
theorem isClickAttempt_nativeClick :
    isClickAttempt ClickAction.nativeClick = true := rfl

@[simp]
theorem isClickAttempt_jsClick : isClickAttempt ClickAction.jsClick = true := rfl

@[simp]
theorem isClickAttempt_jqueryClick :
    isClickAttempt ClickAction.jqueryClick = true := rfl

/-- C1 (amended): a stale-element first failure triggers a ready-state
wait, a fixed 0.16 s sleep, a re-wait for visibility, a re-scroll and one
retry of the click; a not-interactable first failure does the same with a
0.1 s sleep (when the new-tab special case does not fire); a
WebDriver-level first failure falls back to a direct JS event dispatch,
then to a jQuery-triggered event, then to one final re-wait and native
click whose failure propagates; and in every case at most four click
attempts are made. -/
theorem click_retry_fallback_semantics (env : ClickEnv) :
    (headlessSkip env = false →
      env.firstResult = ClickTry.exc ClickExc.stale →
      (click env).1 = clickPre env ++ [mainAttempt env,
        ClickAction.waitReady, ClickAction.sleep 160,
        ClickAction.waitVisible, ClickAction.scroll, handlerClick env] ∧
      (env.staleRetryResult = ClickTry.ok →
        (click env).2 = ClickOutcome.success) ∧
      (∀ k, env.staleRetryResult = ClickTry.exc k →
        (click env).2 = ClickOutcome.rawRaise k)) ∧
    (headlessSkip env = false →
      env.firstResult = ClickTry.exc ClickExc.eni →
      env.eniNewTabAnchor = false →
      (click env).1 = clickPre env ++ [mainAttempt env,
        ClickAction.waitReady, ClickAction.sleep 100,
        ClickAction.waitVisible, ClickAction.scroll, handlerClick env] ∧
      (env.eniRetryResult = ClickTry.ok →
        (click env).2 = ClickOutcome.success) ∧
      (∀ k, env.eniRetryResult = ClickTry.exc k →
        (click env).2 = ClickOutcome.rawRaise k)) ∧
    (headlessSkip env = false →
      env.firstResult = ClickTry.exc ClickExc.webdriver →
      (env.jsResult = ClickTry.ok →
        (click env).1 = clickPre env ++ [mainAttempt env,
          ClickAction.waitReady, ClickAction.jsClick] ∧
        (click env).2 = ClickOutcome.success) ∧
      (∀ k1, env.jsResult = ClickTry.exc k1 →
        env.jqueryResult = ClickTry.ok →
        (click env).1 = clickPre env ++ [mainAttempt env,
          ClickAction.waitReady, ClickAction.jsClick,
          ClickAction.jqueryClick] ∧
        (click env).2 = ClickOutcome.success) ∧
      (∀ k1 k2, env.jsResult = ClickTry.exc k1 →
        env.jqueryResult = ClickTry.exc k2 →
        (click env).1 = clickPre env ++ [mainAttempt env,
          ClickAction.waitReady, ClickAction.jsClick,
          ClickAction.jqueryClick, ClickAction.waitVisible,
          ClickAction.nativeClick] ∧
        (env.finalResult = ClickTry.ok →
          (click env).2 = ClickOutcome.success) ∧
        (∀ k, env.finalResult = ClickTry.exc k →
          (click env).2 = ClickOutcome.rawRaise k))) ∧
    (clickAttempts (click env).1).length ≤ 4 := by
  refine ⟨?_, ?_, ?_, ?_⟩
  · intro hsk hf
    simp only [click, hsk, Bool.false_eq_true, if_false, hf]
    refine ⟨by first | rfl | trivial, ?_, ?_⟩
    · intro hr
      simp only [hr]
    · intro k hr
      simp only [hr]
  · intro hsk hf hnt
    simp only [click, hsk, Bool.false_eq_true, if_false, hf, hnt]
    refine ⟨by first | rfl | trivial, ?_, ?_⟩
    · intro hr
      simp only [hr]
    · intro k hr
      simp only [hr]
  · intro hsk hf
    simp only [click, hsk, Bool.false_eq_true, if_false, hf]
    refine ⟨?_, ?_, ?_⟩
    · intro hjs
      simp only [hjs]
      exact ⟨by first | rfl | trivial, by first | rfl | trivial⟩
    · intro k1 hjs hjq
      simp only [hjs, hjq]
      exact ⟨by first | rfl | trivial, by first | rfl | trivial⟩
    · intro k1 k2 hjs hjq
      simp only [hjs, hjq]
      refine ⟨by first | rfl | trivial, ?_, ?_⟩
      · intro hr
        simp only [hr]
      · intro k hr
        simp only [hr]
  · by_cases hsk : headlessSkip env = true
    · simp only [click, hsk, if_true, clickAttempts_append,
        clickAttempts_clickPre]
      simp [clickAttempts, isClickAttempt]
    · have hskf : headlessSkip env = false := by
        rcases hb : headlessSkip env with _ | _
        · rfl
        · exact absurd hb hsk
      rcases hf : env.firstResult with _ | k
      · simp only [click, hskf, Bool.false_eq_true, if_false, hf,
          clickAttempts_append, clickAttempts_clickPre]
        simp [clickAttempts, List.filter_cons, isClickAttempt_mainAttempt,
          isClickAttempt_handlerClick]
      · cases k with
        | stale =>
            simp only [click, hskf, Bool.false_eq_true, if_false, hf,
              clickAttempts_append, clickAttempts_clickPre]
            simp [clickAttempts, List.filter_cons, isClickAttempt_mainAttempt,
              isClickAttempt_handlerClick]
        | eni =>
            by_cases hnt : env.eniNewTabAnchor = true
            · simp only [click, hskf, Bool.false_eq_true, if_false, hf, hnt,
                if_true, clickAttempts_append, clickAttempts_clickPre]
              simp [clickAttempts, List.filter_cons,
                isClickAttempt_mainAttempt, isClickAttempt_handlerClick]
            · have hntf : env.eniNewTabAnchor = false := by
                rcases hb : env.eniNewTabAnchor with _ | _
                · rfl
                · exact absurd hb hnt
              simp only [click, hskf, Bool.false_eq_true, if_false, hf, hntf,
                clickAttempts_append, clickAttempts_clickPre]
              simp [clickAttempts, List.filter_cons,
                isClickAttempt_mainAttempt, isClickAttempt_handlerClick]
        | webdriver =>
            rcases hjs : env.jsResult with _ | k1
            · simp only [click, hskf, Bool.false_eq_true, if_false, hf, hjs,
                clickAttempts_append, clickAttempts_clickPre]
              simp [clickAttempts, List.filter_cons,
                isClickAttempt_mainAttempt, isClickAttempt_handlerClick]
            · rcases hjq : env.jqueryResult with _ | k2
              · simp only [click, hskf, Bool.false_eq_true, if_false, hf,
                  hjs, hjq, clickAttempts_append, clickAttempts_clickPre]
                simp [clickAttempts, List.filter_cons,
                  isClickAttempt_mainAttempt, isClickAttempt_handlerClick]
              · simp only [click, hskf, Bool.false_eq_true, if_false, hf,
                  hjs, hjq, clickAttempts_append, clickAttempts_clickPre]
                simp [clickAttempts, List.filter_cons,
                  isClickAttempt_mainAttempt, isClickAttempt_handlerClick]
        | unrelated n =>
            simp only [click, hskf, Bool.false_eq_true, if_false, hf,
              clickAttempts_append, clickAttempts_clickPre]
            simp [clickAttempts, List.filter_cons,
              isClickAttempt_mainAttempt, isClickAttempt_handlerClick]

/-- The environment of the C1 counterexample: a standard Chrome click whose
native click raises a WebDriverException and whose JS and jQuery fallbacks
also fail, so the final native attempt runs. -/
def clickCexEnv : ClickEnv where
  browser := "chrome"
  byLinkText := false
  scrollFlag := true
  headless := false
  headlessNewTabAnchor := false
  eniNewTabAnchor := false
  firstResult := ClickTry.exc ClickExc.webdriver
  staleRetryResult := ClickTry.ok
  eniRetryResult := ClickTry.ok
  jsResult := ClickTry.exc ClickExc.webdriver
  jqueryResult := ClickTry.exc ClickExc.webdriver
  finalResult := ClickTry.ok

/-- C1 counterexample: after the JS and jQuery fallbacks fail, `click`
makes a FOURTH attempt (one more native click), so the attempt sequence is
not limited to the claimed native → JS → jQuery cascade. -/
theorem click_fixed_cascade_counterexample :
    clickAttempts (click clickCexEnv).1 =
      [ClickAction.nativeClick, ClickAction.jsClick, ClickAction.jqueryClick,
        ClickAction.nativeClick] ∧
    (click clickCexEnv).2 = ClickOutcome.success ∧
    ¬ (clickAttempts (click clickCexEnv).1).length ≤
      [ClickAction.nativeClick, ClickAction.jsClick,
        ClickAction.jqueryClick].length := by
  refine ⟨rfl, rfl, by decide⟩

/-- The environment of the C1 witness: a stale first failure followed by a
successful retry. -/
def clickWitnessEnv : ClickEnv where
  browser := "chrome"
  byLinkText := false
  scrollFlag := true
  headless := false
  headlessNewTabAnchor := false
  eniNewTabAnchor := false
  firstResult := ClickTry.exc ClickExc.stale
  staleRetryResult := ClickTry.ok
  eniRetryResult := ClickTry.ok
  jsResult := ClickTry.ok
  jqueryResult := ClickTry.ok
  finalResult := ClickTry.ok

/-- C1 witness: the stale-element handler re-waits, sleeps 0.16 s,
re-scrolls and retries once, and the successful retry completes the
call. -/
theorem click_retry_fallback_semantics_witness :
    (click clickWitnessEnv).1 = clickPre clickWitnessEnv ++
      [mainAttempt clickWitnessEnv, ClickAction.waitReady,
        ClickAction.sleep 160, ClickAction.waitVisible, ClickAction.scroll,
        handlerClick clickWitnessEnv] ∧
    (click clickWitnessEnv).2 = ClickOutcome.success := by
  have h := (click_retry_fallback_semantics clickWitnessEnv).1 rfl rfl
  exact ⟨h.1, h.2.1 rfl⟩

end SeleniumBase
